import Mathlib

/-!
Verification of the markdown-to-memo parser and HTML renderer of
`html_generator.py` (functions `parse_analysis`, `save_section`,
`markdown_to_html`, `parse_snapshot`, `parse_fit_table`, `parse_verdict`,
`parse_bullet_points`, `parse_debates`, `parse_terms`, `parse_risks`,
`parse_dd`, `markdown_to_simple_html`, `generate_html`).

Text is modelled as `List Char` (`Str`).  Python's string primitives
(`strip`, `split`, `startswith`, `in`, `replace`) and the specific regular
expressions used by the source (with their leftmost / non-greedy /
backtracking semantics) are implemented as executable structural
recursions below, so that every definition reduces in the kernel.
-/

/-- Text, as in the Python source: a sequence of characters. -/
abbrev Str := List Char

/-- Whitespace recognised by Python's `str.strip()` and the regex class
`\s` (ASCII range, which is all the source ever meets). -/
def wsChar (c : Char) : Bool :=
  c == ' ' || c == '\t' || c == '\n' || c == '\r' ||
  c == Char.ofNat 11 || c == Char.ofNat 12

/-- Python `s.strip()`. -/
def stripL (s : Str) : Str :=
  ((s.dropWhile wsChar).reverse.dropWhile wsChar).reverse

/-- Python `s.startswith(pat)`. -/
def startsW (s pat : Str) : Bool :=
  List.isPrefixOf pat s

/-- Python `pat in s` (substring containment). -/
def containsL (pat : Str) : Str → Bool
  | [] => pat.isEmpty
  | c :: rest => List.isPrefixOf pat (c :: rest) || containsL pat rest

/-- Python `s.upper()` (ASCII). -/
def toUpperL (s : Str) : Str := s.map Char.toUpper

/-- Python `s.lower()` (ASCII). -/
def toLowerL (s : Str) : Str := s.map Char.toLower

/-- Python `s.split(sep)` for a one-character separator. -/
def splitOnChar (sep : Char) : Str → List Str
  | [] => [[]]
  | c :: rest =>
    if c = sep then [] :: splitOnChar sep rest
    else
      match splitOnChar sep rest with
      | [] => [[c]]
      | h :: t => (c :: h) :: t

/-- Python `s.split(chr(10))`. -/
def splitNl : Str → List Str := splitOnChar '\n'

/-- Python `chr(10).join(ls)`. -/
def intercalNl : List Str → Str
  | [] => []
  | [x] => x
  | x :: y :: t => x ++ '\n' :: intercalNl (y :: t)

/-- The last character of a string as a one-character string
(empty input gives the empty string). -/
def lastChar (s : Str) : Str :=
  match s.reverse with
  | [] => []
  | c :: _ => [c]

/-- Case-insensitive prefix test (regex `re.IGNORECASE` literals). -/
def ciIsPrefix (pat s : Str) : Bool :=
  List.isPrefixOf (toLowerL pat) (toLowerL s)

/-!  Generic engine for Python's `re.sub(pattern, repl, s)`: scan left to
right; at each position ask the matcher for a match starting there; on a
match of length `n` emit the (already computed) replacement and resume
after the matched span; otherwise copy one character.  The `Nat` argument
counts characters of a matched span still to be skipped. -/

def reSub (m : Str → Option (Nat × Str)) : Nat → Str → Str
  | 0, [] => []
  | 0, c :: rest =>
    match m (c :: rest) with
    | some (n + 1, rep) => rep ++ reSub m n rest
    | some (0, _) => c :: reSub m 0 rest
    | none => c :: reSub m 0 rest
  | _ + 1, [] => []
  | n + 1, _ :: rest => reSub m n rest

/-- Python `s.replace(pat, rep)` (literal, leftmost, non-overlapping). -/
def pyReplace (s pat rep : Str) : Str :=
  reSub (fun t => if pat.isEmpty then none
                  else if startsW t pat then some (pat.length, rep) else none) 0 s

/-- Index of the first `')'`, if any (helper for `\[\]\([^)]*\)`). -/
def findRParen : Str → Option Nat
  | [] => none
  | c :: rest => if c = ')' then some 0 else (findRParen rest).map (· + 1)

/-- Matcher for `re.sub(r'\[\]\([^)]*\)', '', text)`: an empty-label
link `[](...)`. -/
def mEmptyLabel : Str → Option (Nat × Str)
  | '[' :: ']' :: '(' :: rest => (findRParen rest).map (fun k => (3 + k + 1, []))
  | _ => none

/-- Scanner for `\[[^\]]+\]\(\)` after the opening `[`: counts the
non-`]` label characters and requires `]()` to follow. -/
def etScan (k : Nat) : Str → Option Nat
  | [] => none
  | c :: rest =>
    if c = ']' then
      match rest with
      | '(' :: ')' :: _ => if k = 0 then none else some k
      | _ => none
    else etScan (k + 1) rest

/-- Matcher for `re.sub(r'\[[^\]]+\]\(\)', '', text)`: an empty-target
link `[label]()`. -/
def mEmptyTarget : Str → Option (Nat × Str)
  | '[' :: rest => (etScan 0 rest).map (fun k => (1 + k + 3, []))
  | _ => none

/-- The anchor replacement `<a href="\2" target="_blank" class="citation">\1</a>`. -/
def anchorOf (lab url : Str) : Str :=
  ("<a href=\"".data) ++ url ++ ("\" target=\"_blank\" class=\"citation\">".data) ++
  lab ++ ("</a>".data)

/-- Scanner for the URL group of `\[([^\]]+)\]\(([^)]+)\)`. -/
def lkUrlScan (lab : Str) (urlAcc : Str) : Str → Option (Nat × Str)
  | [] => none
  | ')' :: _ =>
    if urlAcc.isEmpty then none
    else some (1 + lab.length + 2 + urlAcc.length + 1, anchorOf lab urlAcc.reverse)
  | c :: rest => lkUrlScan lab (c :: urlAcc) rest

/-- Scanner for the label group of `\[([^\]]+)\]\(([^)]+)\)`. -/
def lkLabScan (labAcc : Str) : Str → Option (Nat × Str)
  | [] => none
  | ']' :: rest =>
    match rest with
    | '(' :: rest2 =>
      if labAcc.isEmpty then none else lkUrlScan labAcc.reverse [] rest2
    | _ => none
  | c :: rest => lkLabScan (c :: labAcc) rest

/-- Matcher for `re.sub(r'\[([^\]]+)\]\(([^)]+)\)', anchor, text)`. -/
def mLink : Str → Option (Nat × Str)
  | '[' :: rest => lkLabScan [] rest
  | _ => none

/-- The replacement `<strong>\1</strong>`. -/
def strongOf (content : Str) : Str :=
  ("<strong>".data) ++ content ++ ("</strong>".data)

/-- Scanner for the non-greedy content of `\*\*(.+?)\*\*` (a `.` does not
match a newline): the content is the shortest non-empty newline-free run
followed by `**`. -/
def boldScan (acc : Str) : Str → Option (Nat × Str)
  | [] => none
  | '*' :: '*' :: rest2 =>
    if acc.isEmpty then boldScan ['*'] ('*' :: rest2)
    else some (2 + acc.length + 2, strongOf acc.reverse)
  | '\n' :: _ => none
  | c :: rest => boldScan (c :: acc) rest

/-- Matcher for `re.sub(r'\*\*(.+?)\*\*', r'<strong>\1</strong>', text)`. -/
def mBold : Str → Option (Nat × Str)
  | '*' :: '*' :: rest => boldScan [] rest
  | _ => none

/-- `re.sub(r'\*\*(.+?)\*\*', r'<strong>\1</strong>', s)`. -/
def boldSub (s : Str) : Str := reSub mBold 0 s

/-- Scanner for `\s*(PURSUE|PASS|MONITOR)` after the `#` of
`re.sub(r'#\s*(PURSUE|PASS|MONITOR)', '', remaining)`. -/
def vmScan (k : Nat) : Str → Option Nat
  | [] => none
  | c :: rest =>
    if wsChar c then vmScan (k + 1) rest
    else if startsW (c :: rest) ("PURSUE".data) then some (k + 6)
    else if startsW (c :: rest) ("PASS".data) then some (k + 4)
    else if startsW (c :: rest) ("MONITOR".data) then some (k + 7)
    else none

/-- Matcher for `re.sub(r'#\s*(PURSUE|PASS|MONITOR)', '', remaining)`. -/
def mVerdictMark : Str → Option (Nat × Str)
  | '#' :: rest => (vmScan 0 rest).map (fun n => (1 + n, []))
  | _ => none

/-- Scanner for `\s*(HIGH|MEDIUM|LOW)` (case-insensitive). -/
def cmScan (k : Nat) : Str → Option Nat
  | [] => none
  | c :: rest =>
    if wsChar c then cmScan (k + 1) rest
    else if ciIsPrefix ("high".data) (c :: rest) then some (k + 4)
    else if ciIsPrefix ("medium".data) (c :: rest) then some (k + 6)
    else if ciIsPrefix ("low".data) (c :: rest) then some (k + 3)
    else none

/-- Matcher for
`re.sub(r'\*\*Confidence:\*\*\s*(HIGH|MEDIUM|LOW)', '', remaining, flags=re.IGNORECASE)`. -/
def mConfMark (s : Str) : Option (Nat × Str) :=
  if ciIsPrefix ("**confidence:**".data) s then
    (cmScan 0 (s.drop 15)).map (fun n => (15 + n, []))
  else none

/-- `re.search(r'(STRONG|MODERATE|WEAK)', line, re.IGNORECASE)`, returning
`match.group(1).upper()`. -/
def searchSMW : Str → Option Str
  | [] => none
  | c :: rest =>
    if ciIsPrefix ("strong".data) (c :: rest) then some ("STRONG".data)
    else if ciIsPrefix ("moderate".data) (c :: rest) then some ("MODERATE".data)
    else if ciIsPrefix ("weak".data) (c :: rest) then some ("WEAK".data)
    else searchSMW rest

/-- `re.search(r'(HIGH|MEDIUM|LOW)', line, re.IGNORECASE)`, returning
`match.group(1).upper()`. -/
def searchHML : Str → Option Str
  | [] => none
  | c :: rest =>
    if ciIsPrefix ("high".data) (c :: rest) then some ("HIGH".data)
    else if ciIsPrefix ("medium".data) (c :: rest) then some ("MEDIUM".data)
    else if ciIsPrefix ("low".data) (c :: rest) then some ("LOW".data)
    else searchHML rest

/-- The group of `\s*(.+)` matched against a non-empty newline-free `x`:
normally everything after the leading whitespace; when `x` is all
whitespace the greedy `\s*` backtracks by one and the group is the last
character. -/
def wsCaptVal (x : Str) : Str :=
  let v := x.dropWhile wsChar
  if v.isEmpty then lastChar x else v

/-- `\s*(.+)` matched against `r`: fails only on the empty string. -/
def wsCapture (r : Str) : Option Str :=
  if r.isEmpty then none else some (wsCaptVal r)

/-- The group of `:?\s*(.+)` matched against `r` (the optional colon also
backtracks: on input `":"` the group is `":"`). -/
def tailCapture : Str → Option Str
  | [] => none
  | ':' :: r' => if r'.isEmpty then some [':'] else some (wsCaptVal r')
  | c :: r => some (wsCaptVal (c :: r))

/-- `re.search(r'Information Gaps:?\s*(.+)', line, re.IGNORECASE)`,
returning the group. -/
def searchIG : Str → Option Str
  | [] => none
  | c :: rest =>
    if ciIsPrefix ("information gaps".data) (c :: rest) then
      match tailCapture ((c :: rest).drop 16) with
      | some v => some v
      | none => searchIG rest
    else searchIG rest

/-- Scanner for the non-greedy label of `\*\*(.+?):\*\*\s*(.+)`: the label
is the shortest non-empty run followed by `:**` whose value part also
matches; on a value failure the label is extended past that `:**`. -/
def kvScan (acc : Str) : Str → Option (Str × Str)
  | [] => none
  | ':' :: '*' :: '*' :: r2 =>
    if acc.isEmpty then kvScan [':'] ('*' :: '*' :: r2)
    else
      match wsCapture r2 with
      | some v => some (acc.reverse, v)
      | none => kvScan (':' :: acc) ('*' :: '*' :: r2)
  | '\n' :: _ => none
  | c :: r => kvScan (c :: acc) r

/-- `re.match(r'\*\*(.+?):\*\*\s*(.+)', line)`, returning the two groups. -/
def kvCore : Str → Option (Str × Str)
  | '*' :: '*' :: rest => kvScan [] rest
  | _ => none

/-- Scanner for `\*\*(.+?)\*\*:?\s*(.+)` after the opening `**`. -/
def dbScan (acc : Str) : Str → Option (Str × Str)
  | [] => none
  | '*' :: '*' :: r2 =>
    if acc.isEmpty then dbScan ['*'] ('*' :: r2)
    else
      match tailCapture r2 with
      | some v => some (acc.reverse, v)
      | none => dbScan ('*' :: acc) ('*' :: r2)
  | '\n' :: _ => none
  | c :: r => dbScan (c :: acc) r

/-- `re.match(r'\*\*(.+?)\*\*:?\s*(.+)', line)`, returning the two groups. -/
def dbCore : Str → Option (Str × Str)
  | '*' :: '*' :: rest => dbScan [] rest
  | _ => none

/-- A `[-:]` class character. -/
def dcChar (c : Char) : Bool := c == '-' || c == ':'

/-- `\s*[-:]+\s*(.+)` matched against `rest` (with the backtracking of the
two greedy pieces), returning the group. -/
def dashColonSuffix (rest : Str) : Option Str :=
  let a := rest.dropWhile wsChar
  let m := a.takeWhile dcChar
  if m.isEmpty then none
  else
    let r := a.drop m.length
    if r.isEmpty then (if 2 ≤ m.length then some (lastChar m) else none)
    else some (wsCaptVal r)

/-- Scanner for `\*\*(.+?)\*\*\s*[-:]+\s*(.+)` after the opening `**`. -/
def bpScan (acc : Str) : Str → Option (Str × Str)
  | [] => none
  | '*' :: '*' :: r2 =>
    if acc.isEmpty then bpScan ['*'] ('*' :: r2)
    else
      match dashColonSuffix r2 with
      | some d => some (acc.reverse, d)
      | none => bpScan ('*' :: acc) ('*' :: r2)
  | '\n' :: _ => none
  | c :: r => bpScan (c :: acc) r

/-- `re.match(r'\*\*(.+?)\*\*\s*[-:]+\s*(.+)', line)`, returning the two
groups. -/
def bpCore : Str → Option (Str × Str)
  | '*' :: '*' :: rest => bpScan [] rest
  | _ => none

/-- Python `s.rstrip(':')`. -/
def rstripColon (s : Str) : Str := (s.reverse.dropWhile (· == ':')).reverse

/-- `re.match(r'^\d+\.', line)` as a test. -/
def numDotTest (l : Str) : Bool :=
  let d := l.takeWhile Char.isDigit
  !d.isEmpty && startsW (l.drop d.length) (".".data)

/-- The remainder after stripping `^\d+\.\s*` (meaningful when
`numDotTest` holds). -/
def numStrip (l : Str) : Str :=
  ((l.dropWhile Char.isDigit).drop 1).dropWhile wsChar

/-- `re.sub(r'^\d+\.\s*', '', line)`. -/
def pySubNumPrefix (l : Str) : Str :=
  if numDotTest l then numStrip l else l

/-- `re.match(r'^\d+\.\s', line)` as a test (a whitespace character is
required after the dot). -/
def numDotSpTest (l : Str) : Bool :=
  let d := l.takeWhile Char.isDigit
  !d.isEmpty &&
    (match l.drop d.length with
     | '.' :: c :: _ => wsChar c
     | _ => false)

/-- Scanner for the non-greedy title of `(.+?):\s*(.+)`: shortest prefix
followed by a `:` whose description part matches; extended past a `:` on
failure. -/
def titleColonScan (acc : Str) : Str → Option (Str × Str)
  | [] => none
  | ':' :: rest =>
    if acc.isEmpty then titleColonScan [':'] rest
    else
      match wsCapture rest with
      | some d => some (acc.reverse, d)
      | none => titleColonScan (':' :: acc) rest
  | '\n' :: _ => none
  | c :: rest => titleColonScan (c :: acc) rest

/-- `\s*(.+?):\s*(.+)` matched against `r` (the remainder after `\d+\.`):
the leading `\s*` is greedy, but backtracks one character when the title
scan from the whitespace-free position fails and a title starting with the
last whitespace character succeeds. -/
def riskFallback (r : Str) : Option (Str × Str) :=
  match titleColonScan [] (r.dropWhile wsChar) with
  | some x => some x
  | none =>
    if (r.takeWhile wsChar).isEmpty then none
    else
      match r.dropWhile wsChar with
      | ':' :: r2 => (wsCapture r2).map (fun d => (lastChar (r.takeWhile wsChar), d))
      | _ => none

/-- `re.match(r'^\d+\.\s*\*\*(.+?):\*\*\s*(.+)', line)` (under the
`^\d+\.` guard). -/
def riskMatch1 (t : Str) : Option (Str × Str) := kvCore (numStrip t)

/-- `re.match(r'^\d+\.\s*(.+?):\s*(.+)', line)` (under the `^\d+\.`
guard). -/
def riskMatch2 (t : Str) : Option (Str × Str) :=
  riskFallback ((t.dropWhile Char.isDigit).drop 1)

/-- Python `text.split(chr(10) ++ chr(10))` (paragraph split). -/
def splitParas : Str → List Str
  | [] => [[]]
  | '\n' :: '\n' :: rest => [] :: splitParas rest
  | c :: rest =>
    match splitParas rest with
    | [] => [[c]]
    | h :: t => (c :: h) :: t

/-- `re.split(r'\n[-*]\s', p)`. -/
def splitBul : Str → List Str
  | '\n' :: m :: w :: rest =>
    if (m == '-' || m == '*') && wsChar w then [] :: splitBul rest
    else
      match splitBul (m :: w :: rest) with
      | [] => [['\n']]
      | h :: t => ('\n' :: h) :: t
  | [] => [[]]
  | c :: rest =>
    match splitBul rest with
    | [] => [[c]]
    | h :: t => (c :: h) :: t

/-- `html.escape` of one character. -/
def escChar (c : Char) : Str :=
  if c = '&' then ("&amp;".data)
  else if c = '<' then ("&lt;".data)
  else if c = '>' then ("&gt;".data)
  else if c = '"' then ("&quot;".data)
  else if c = '\'' then ("&#x27;".data)
  else [c]

/-- Python `html.escape(s)`. -/
def htmlEscape (s : Str) : Str := (s.map escChar).flatten

/-- Python `s.lower().split()[0]` for a stripped non-empty `s` (first
whitespace-delimited word). -/
def firstWord (s : Str) : Str :=
  (s.dropWhile wsChar).takeWhile (fun c => !wsChar c)

/-- Index of the first occurrence of `mark`, if any. -/
def findMarkIdx (mark : Str) : Str → Option Nat
  | [] => if mark.isEmpty then some 0 else none
  | c :: rest =>
    if List.isPrefixOf mark (c :: rest) then some 0
    else (findMarkIdx mark rest).map (· + 1)

/-- Matcher for `re.sub(r'<!-- ANALYST_APPENDIX_START -->.*?<!-- ANALYST_APPENDIX_END -->', '', html, flags=re.DOTALL)`. -/
def mAppendix (s : Str) : Option (Nat × Str) :=
  if startsW s ("<!-- ANALYST_APPENDIX_START -->".data) then
    (findMarkIdx ("<!-- ANALYST_APPENDIX_END -->".data) (s.drop 31)).map
      (fun j => (31 + j + 29, []))
  else none

/-- A snapshot or terms entry (`{'label': ..., 'value': ...}`). -/
structure KV where
  label : Str
  value : Str
deriving DecidableEq

/-- A fit-table row (`{'criterion': ..., 'rating': ..., 'assessment': ...}`). -/
structure FitRow where
  criterion : Str
  rating : Str
  assessment : Str
deriving DecidableEq

/-- A bull/bear/risk entry (`{'title': ..., 'description': ...}`). -/
structure CasePoint where
  title : Str
  description : Str
deriving DecidableEq

/-- A key-debates entry (`{'question': ..., 'views': ...}`). -/
structure Debate where
  question : Str
  views : Str
deriving DecidableEq

/-- The `sections` dictionary of `parse_analysis` (the StructuredMemo). -/
structure Sections where
  company_name : Str
  opportunity : Str
  snapshot : List KV
  market : Str
  competition : Str
  team : Str
  investors : Str
  fit_table : List FitRow
  overall_fit : Str
  bull_case : List CasePoint
  bear_case : List CasePoint
  key_debates : List Debate
  verdict : Str
  verdict_rationale : Str
  confidence : Str
  terms : List KV
  risks : List CasePoint
  info_gaps : Str
  dd_priorities : List Str
  bottom_line : Str
deriving DecidableEq

/-- The initial `sections` dictionary: every field empty. -/
def emptySections : Sections :=
  ⟨[], [], [], [], [], [], [], [], [], [], [], [], [], [], [], [], [], [], [], []⟩

/-- Python `sep.join(ls)` for a general separator. -/
def joinSep (sep : Str) : List Str → Str
  | [] => []
  | [x] => x
  | x :: y :: t => x ++ sep ++ joinSep sep (y :: t)

/-- The `<ul>` branch of `markdown_to_html` for a paragraph starting with
a bullet marker. -/
def bulletItemsHtml (p : Str) : Str :=
  let items := splitBul p
  let items :=
    match items with
    | [] => []
    | h :: t => (h.drop 2) :: t
  ("<ul>".data) ++
    (items.filterMap (fun it =>
      let s := stripL it
      if s.isEmpty then none
      else some (("<li>".data) ++ s ++ ("</li>".data)))).flatten ++
  ("</ul>".data)

/-- One paragraph of `markdown_to_html` (`None` when the stripped
paragraph is empty and is skipped). -/
def paraHtml (preserve : Bool) (p0 : Str) : Option Str :=
  let p := stripL p0
  if p.isEmpty then none
  else if startsW p ("- ".data) || startsW p ("* ".data) then
    some (bulletItemsHtml p)
  else if preserve then
    some (("<p>".data) ++
      joinSep ("<br>\n".data)
        ((splitNl p).filterMap (fun l =>
          let s := stripL l
          if s.isEmpty then none else some s)) ++
      ("</p>".data))
  else
    some (("<p>".data) ++ p.map (fun c => if c = '\n' then ' ' else c) ++ ("</p>".data))

/-- `markdown_to_html(text, preserve_breaks)`. -/
def markdown_to_html (text : Str) (preserve : Bool := false) : Str :=
  let t1 := reSub mEmptyLabel 0 text
  let t2 := reSub mEmptyTarget 0 t1
  let t3 := reSub mLink 0 t2
  let t4 := reSub mBold 0 t3
  intercalNl ((splitParas t4).filterMap (paraHtml preserve))

/-- `parse_snapshot(text)`. -/
def parse_snapshot (text : Str) : List KV :=
  (splitNl text).filterMap (fun l0 =>
    let l := stripL l0
    if startsW l ("**".data) && containsL (":**".data) l then
      (kvCore l).map (fun p => ⟨p.1, reSub mLink 0 p.2⟩)
    else none)

/-- One line of the `parse_fit_table` loop acting on the accumulated
`(rows, overall)` pair. -/
def fitStep (acc : List FitRow × Str) (l0 : Str) : List FitRow × Str :=
  let l := stripL l0
  let rows :=
    if startsW l ("|".data) && !containsL ("---".data) l then
      match ((splitOnChar '|' l).drop 1).dropLast.map stripL with
      | c0 :: c1 :: c2 :: _ =>
        if toLowerL c0 = ("criterion".data) ∨ toLowerL c0 = [] then acc.1
        else acc.1 ++ [⟨c0, c1, c2⟩]
      | _ => acc.1
    else acc.1
  let ov :=
    if containsL ("Overall Fit".data) l || containsL ("OVERALL FIT".data) l then
      match searchSMW l with
      | some x => x
      | none => acc.2
    else acc.2
  (rows, ov)

/-- `parse_fit_table(text)`, returning `(rows, overall)`. -/
def parse_fit_table (text : Str) : List FitRow × Str :=
  (splitNl text).foldl fitStep ([], [])

/-- The three `# VERDICT` forms recognised by `parse_verdict`. -/
def hashVerdicts : List Str := [("# PURSUE".data), ("# PASS".data), ("# MONITOR".data)]

/-- The three bare verdict tokens. -/
def bareVerdicts : List Str := [("PURSUE".data), ("PASS".data), ("MONITOR".data)]

/-- The line loop of `parse_verdict` (`break` on the rationale line). -/
def pvLoop (v c : Str) : List Str → Str × Str × Str
  | [] => (v, c, [])
  | l :: ls =>
    let t := stripL l
    if t ∈ hashVerdicts then pvLoop (t.drop 2) c ls
    else if t ∈ bareVerdicts then pvLoop t c ls
    else if containsL ("**Confidence:**".data) t || containsL ("Confidence:".data) t then
      match searchHML t with
      | some x => pvLoop v x ls
      | none => pvLoop v c ls
    else if !t.isEmpty && !startsW t ("#".data) && !startsW t ("*".data) &&
            !containsL ("Confidence".data) t then
      (v, c, boldSub t)
    else pvLoop v c ls

/-- The fallback rationale of `parse_verdict`: the whole joined text with
`#`-verdict and bold-confidence markers substituted away, bold converted,
then stripped. -/
def pvFallback (text : Str) : Str :=
  stripL (boldSub (reSub mConfMark 0 (reSub mVerdictMark 0 (stripL text))))

/-- `parse_verdict(text)`, returning `(verdict, confidence, rationale)`. -/
def parse_verdict (text : Str) : Str × Str × Str :=
  let r := pvLoop [] [] (splitNl text)
  if r.2.2.isEmpty then (r.1, r.2.1, pvFallback text) else r

/-- `parse_bullet_points(text)`. -/
def parse_bullet_points (text : Str) : List CasePoint :=
  (splitNl text).filterMap (fun l0 =>
    let l := stripL l0
    if startsW l ("- ".data) || startsW l ("* ".data) then
      let l2 := l.drop 2
      match bpCore l2 with
      | some p => some ⟨rstripColon p.1, p.2⟩
      | none => if l2.isEmpty then none else some ⟨[], l2⟩
    else none)

/-- `parse_debates(text)`. -/
def parse_debates (text : Str) : List Debate :=
  (splitNl text).filterMap (fun l0 =>
    let l := stripL l0
    if numDotTest l then
      let l2 := pySubNumPrefix l
      match dbCore l2 with
      | some p => some ⟨p.1, p.2⟩
      | none => if l2.isEmpty then none else some ⟨l2, []⟩
    else none)

/-- `parse_terms(text)`. -/
def parse_terms (text : Str) : List KV :=
  (splitNl text).filterMap (fun l0 =>
    let l := stripL l0
    if startsW l ("**".data) && containsL (":**".data) l then
      (kvCore l).map (fun p => KV.mk p.1 p.2)
    else none)

/-- One line of the `parse_risks` loop acting on
`(risks, info_gaps, in_risks)`. -/
def riskStep (st : List CasePoint × Str × Bool) (l0 : Str) :
    List CasePoint × Str × Bool :=
  let l := stripL l0
  if containsL ("Critical Risks".data) l || containsL ("Key Risks".data) l then
    (st.1, st.2.1, true)
  else if containsL ("Information Gaps".data) l then
    (st.1, (match searchIG l with | some v => v | none => st.2.1), false)
  else
    let risks :=
      if st.2.2 && numDotTest l then
        match riskMatch1 l with
        | some p => st.1 ++ [⟨p.1, p.2⟩]
        | none =>
          match riskMatch2 l with
          | some p => st.1 ++ [⟨p.1, p.2⟩]
          | none => st.1
      else st.1
    let gaps :=
      if !st.2.2 && !l.isEmpty && !containsL ("Information".data) l then
        if st.2.1.isEmpty then st.2.1 else st.2.1 ++ ' ' :: l
      else st.2.1
    (risks, gaps, st.2.2)

/-- `parse_risks(text)`, returning `(risks, info_gaps)`. -/
def parse_risks (text : Str) : List CasePoint × Str :=
  let st := (splitNl text).foldl riskStep ([], [], false)
  (st.1, st.2.1)

/-- `parse_dd(text)`. -/
def parse_dd (text : Str) : List Str :=
  (splitNl text).filterMap (fun l0 =>
    let l := stripL l0
    if numDotTest l then
      let item := pySubNumPrefix l
      if item.isEmpty then none else some item
    else none)

/-- `save_section(sections, section_name, content)`: the classification
chain dispatching a finalized section to its extractor. -/
def save_section (secs : Sections) (name : Str) (content : List Str) : Sections :=
  let text := stripL (intercalNl content)
  if containsL ("OPPORTUNITY".data) name then
    { secs with opportunity := markdown_to_html text }
  else if containsL ("SNAPSHOT".data) name then
    { secs with snapshot := parse_snapshot text }
  else if containsL ("MARKET".data) name then
    { secs with market := markdown_to_html text }
  else if containsL ("COMPETITIVE".data) name || containsL ("COMPETITION".data) name then
    { secs with competition := markdown_to_html text }
  else if containsL ("TEAM".data) name then
    { secs with team := markdown_to_html text true }
  else if containsL ("INVESTOR".data) name || containsL ("EXISTING INVESTOR".data) name then
    { secs with investors := markdown_to_html text }
  else if containsL ("FIT".data) name then
    { secs with fit_table := (parse_fit_table text).1,
                overall_fit := (parse_fit_table text).2 }
  else if containsL ("BULL".data) name then
    { secs with bull_case := parse_bullet_points text }
  else if containsL ("BEAR".data) name then
    { secs with bear_case := parse_bullet_points text }
  else if containsL ("KEY DEBATE".data) name || containsL ("DEBATES".data) name then
    { secs with key_debates := parse_debates text }
  else if containsL ("RECOMMENDATION".data) name then
    let r := parse_verdict text
    { secs with verdict := if r.1.isEmpty then secs.verdict else r.1,
                confidence := if r.2.1.isEmpty then secs.confidence else r.2.1,
                verdict_rationale := r.2.2 }
  else if containsL ("TERMS".data) name then
    { secs with terms := parse_terms text }
  else if containsL ("RISK".data) name then
    { secs with risks := (parse_risks text).1,
                info_gaps := (parse_risks text).2 }
  else if containsL ("DUE DILIGENCE".data) name || containsL ("DD".data) name then
    { secs with dd_priorities := parse_dd text }
  else if containsL ("BOTTOM".data) name then
    { secs with bottom_line := markdown_to_html text }
  else secs

/-- The loop state of `parse_analysis`, together with ghost
instrumentation: a log of the `(section_name, content)` pairs passed to
`save_section` and counters of title-line assignments to `company_name`
and to `verdict`. -/
structure PAState where
  secs : Sections
  cur : Str
  content : List Str
  savedLog : List (Str × List Str)
  nameSets : Nat
  verdictSets : Nat
deriving DecidableEq

/-- The initial state of the `parse_analysis` loop. -/
def initPA : PAState := ⟨emptySections, [], [], [], 0, 0⟩

/-- `if current_section and current_content: save_section(...)`. -/
def doSave (st : PAState) : PAState :=
  if !st.cur.isEmpty && !st.content.isEmpty then
    { st with secs := save_section st.secs st.cur st.content,
              savedLog := st.savedLog ++ [(st.cur, st.content)] }
  else st

/-- One line of the `parse_analysis` loop. -/
def paStep (st : PAState) (line : Str) : PAState :=
  let t := stripL line
  if startsW t ("# ".data) && !startsW t ("## ".data) then
    let name := stripL (t.drop 2)
    let name_clean := stripL (pyReplace (pyReplace name ("**".data) []) ("*".data) [])
    if toUpperL name_clean ∈ bareVerdicts then
      { st with secs := { st.secs with verdict := toUpperL name_clean },
                verdictSets := st.verdictSets + 1 }
    else
      { st with secs := { st.secs with company_name := name },
                nameSets := st.nameSets + 1 }
  else if startsW t ("### ".data) then
    let st1 := doSave st
    { st1 with cur := toUpperL (stripL (t.drop 4)), content := [] }
  else if startsW t ("## ".data) || t = ("---".data) then st
  else if !st.cur.isEmpty then { st with content := st.content ++ [line] }
  else st

/-- The full `parse_analysis` loop including the final save, returning
the whole (instrumented) state. -/
def paRun (s : Str) : PAState := doSave ((splitNl s).foldl paStep initPA)

/-- `parse_analysis(analysis)`. -/
def parse_analysis (s : Str) : Sections := (paRun s).secs

/-- The first terms entry whose label contains `'rationale'`
(case-insensitive), if any: its value, else the empty string. -/
def ticket_rationale (terms : List KV) : Str :=
  match terms.find? (fun t => containsL ("rationale".data) (toLowerL t.label)) with
  | some t => t.value
  | none => []

/-- The string appended to `terms_html` for one terms entry: nothing for
a rationale-labelled entry, a term item with a nested rationale line for
the ticket-size entry (when a rationale exists), a plain term item
otherwise. -/
def termPiece (rat : Str) (t : KV) : Str :=
  if containsL ("rationale".data) (toLowerL t.label) then []
  else if containsL ("ticket size".data) (toLowerL t.label) && !rat.isEmpty then
    ("\n                <div class=\"term-item\">\n                    <div class=\"term-label\">".data) ++
    t.label ++
    ("</div>\n                    <div class=\"term-value\">".data) ++ t.value ++
    ("</div>\n                    <div class=\"term-rationale\">".data) ++ rat ++
    ("</div>\n                </div>".data)
  else
    ("\n                <div class=\"term-item\">\n                    <div class=\"term-label\">".data) ++
    t.label ++
    ("</div>\n                    <div class=\"term-value\">".data) ++ t.value ++
    ("</div>\n                </div>".data)

/-- The opening of the proposed-terms block. -/
def termsHeader : Str :=
  ("\n        <div class=\"section\">\n            <h2 class=\"section-title\">Proposed Terms</h2>\n            <div class=\"terms-grid\">".data)

/-- The string substituted for the TERMS_SECTION placeholder by
`generate_html`: the whole proposed-terms block when
`verdict == 'PURSUE' and sections['terms']`, the empty string
otherwise. -/
def termsSection (secs : Sections) : Str :=
  if secs.verdict = ("PURSUE".data) ∧ secs.terms ≠ [] then
    (secs.terms.foldl (fun acc t => acc ++ termPiece (ticket_rationale secs.terms) t)
      termsHeader) ++ ("</div></div>".data)
  else []

/-- One snapshot row of `generate_html`. -/
def snapshotPiece (it : KV) : Str :=
  ("\n        <div class=\"snapshot-row\">\n            <span class=\"snapshot-label\">".data) ++
  it.label ++
  ("</span>\n            <span class=\"snapshot-value\">".data) ++ it.value ++
  ("</span>\n        </div>".data)

/-- One fit-table row of `generate_html`. -/
def fitRowPiece (row : FitRow) : Str :=
  let rating_class := if row.rating.isEmpty then [] else firstWord (toLowerL row.rating)
  ("\n        <tr>\n            <td class=\"criterion\">".data) ++ row.criterion ++
  ("</td>\n            <td class=\"rating\"><span class=\"rating-badge ".data) ++
  rating_class ++ ("\">".data) ++ row.rating ++
  ("</span></td>\n            <td>".data) ++ row.assessment ++
  ("</td>\n        </tr>".data)

/-- One bull/bear list item of `generate_html`. -/
def casePiece (p : CasePoint) : Str :=
  if !p.title.isEmpty then
    ("<li><span class=\"case-title\">".data) ++ p.title ++ (":</span> ".data) ++
    p.description ++ ("</li>".data)
  else ("<li>".data) ++ p.description ++ ("</li>".data)

/-- One key-debates list item of `generate_html`. -/
def debatePiece (d : Debate) : Str :=
  ("<li><span class=\"debate-question\">".data) ++ d.question ++ ("</span>".data) ++
  (if !d.views.isEmpty then
    ("<span class=\"debate-views\">".data) ++ d.views ++ ("</span>".data)
   else []) ++
  ("</li>".data)

/-- One risk list item of `generate_html`. -/
def riskPiece (r : CasePoint) : Str :=
  ("\n        <li>\n            <span class=\"risk-title\">".data) ++ r.title ++
  (":</span> ".data) ++ r.description ++ ("\n        </li>".data)

/-- The loop state of `markdown_to_simple_html`. -/
structure MshState where
  result : List Str
  current_list : List Str
  in_list : Bool

/-- `if in_list and current_list: result.append('<ul>'+...+'</ul>'); ...`. -/
def mshFlush (st : MshState) : MshState :=
  if st.in_list && !st.current_list.isEmpty then
    { result := st.result ++ [("<ul>".data) ++ st.current_list.flatten ++ ("</ul>".data)],
      current_list := [], in_list := false }
  else st

/-- One line of the `markdown_to_simple_html` loop. -/
def mshStep (st : MshState) (line : Str) : MshState :=
  let t := stripL line
  if t.isEmpty then mshFlush st
  else
    let esc := boldSub (htmlEscape t)
    if startsW t ("### ".data) then
      let st1 := mshFlush st
      { st1 with result := st1.result ++ [("<h4>".data) ++ esc.drop 4 ++ ("</h4>".data)] }
    else if startsW t ("## ".data) then
      let st1 := mshFlush st
      { st1 with result := st1.result ++ [("<h3>".data) ++ esc.drop 3 ++ ("</h3>".data)] }
    else if startsW t ("# ".data) then
      let st1 := mshFlush st
      { st1 with result := st1.result ++ [("<h3>".data) ++ esc.drop 2 ++ ("</h3>".data)] }
    else if startsW t ("- ".data) || startsW t ("* ".data) then
      { st with current_list := st.current_list ++ [("<li>".data) ++ esc.drop 2 ++ ("</li>".data)],
                in_list := true }
    else if numDotSpTest t then
      { st with current_list := st.current_list ++ [("<li>".data) ++ pySubNumPrefix esc ++ ("</li>".data)],
                in_list := true }
    else
      let st1 := mshFlush st
      { st1 with result := st1.result ++ [("<p>".data) ++ esc ++ ("</p>".data)] }

/-- `markdown_to_simple_html(text)`. -/
def markdown_to_simple_html (text : Str) : Str :=
  let st := (splitNl (stripL text)).foldl mshStep ⟨[], [], false⟩
  intercalNl (mshFlush st).result

/-- `generate_html(sections, source, date_str, bull_case, bear_case,
deliberation)`.  The template document (read from `memo_template.html` by
the source) and the current date (`datetime.now().strftime(...)`) are
passed as the extra arguments `template` and `now`. -/
def generate_html (secs : Sections) (template source date_str now bull_case bear_case deliberation : Str) : Str :=
  let html := template
  let html := pyReplace html ("\x7b\x7bCOMPANY_NAME\x7d\x7d".data) secs.company_name
  let html := pyReplace html ("\x7b\x7bDATE\x7d\x7d".data)
      (if date_str.isEmpty then now else date_str)
  let html := pyReplace html ("\x7b\x7bSOURCE\x7d\x7d".data) source
  let html := pyReplace html ("\x7b\x7bOPPORTUNITY\x7d\x7d".data) secs.opportunity
  let html := pyReplace html ("\x7b\x7bMARKET\x7d\x7d".data) secs.market
  let html := pyReplace html ("\x7b\x7bCOMPETITION\x7d\x7d".data) secs.competition
  let html := pyReplace html ("\x7b\x7bTEAM\x7d\x7d".data) secs.team
  let html := pyReplace html ("\x7b\x7bINVESTORS\x7d\x7d".data)
      (if secs.investors.isEmpty then ("<p>No prior investor information found.</p>".data)
       else secs.investors)
  let html := pyReplace html ("\x7b\x7bSNAPSHOT\x7d\x7d".data)
      (secs.snapshot.foldl (fun a it => a ++ snapshotPiece it) [])
  let fit_html :=
      ("<table class=\"fit-table\"><thead><tr><th>Criterion</th><th>Rating</th><th>Assessment</th></tr></thead><tbody>".data) ++
      secs.fit_table.foldl (fun a r => a ++ fitRowPiece r) [] ++
      ("</tbody></table>".data) ++
      (if !secs.overall_fit.isEmpty then
        ("<div class=\"overall-fit\"><strong>Overall Fit: ".data) ++ secs.overall_fit ++
        ("</strong></div>".data)
       else [])
  let html := pyReplace html ("\x7b\x7bFIT_TABLE\x7d\x7d".data) fit_html
  let bull_html := ("<ul class=\"case-list bull\">".data) ++
      secs.bull_case.foldl (fun a p => a ++ casePiece p) [] ++ ("</ul>".data)
  let html := pyReplace html ("\x7b\x7bBULL_CASE\x7d\x7d".data)
      (if secs.bull_case.isEmpty then ("<p>Not provided</p>".data) else bull_html)
  let bear_html := ("<ul class=\"case-list bear\">".data) ++
      secs.bear_case.foldl (fun a p => a ++ casePiece p) [] ++ ("</ul>".data)
  let html := pyReplace html ("\x7b\x7bBEAR_CASE\x7d\x7d".data)
      (if secs.bear_case.isEmpty then ("<p>Not provided</p>".data) else bear_html)
  let debates_html := ("<ul class=\"debates-list\">".data) ++
      secs.key_debates.foldl (fun a d => a ++ debatePiece d) [] ++ ("</ul>".data)
  let html := pyReplace html ("\x7b\x7bKEY_DEBATES\x7d\x7d".data)
      (if secs.key_debates.isEmpty then ("<p>Not provided</p>".data) else debates_html)
  let html := pyReplace html ("\x7b\x7bVERDICT\x7d\x7d".data) secs.verdict
  let html := pyReplace html ("\x7b\x7bVERDICT_CLASS\x7d\x7d".data) (toLowerL secs.verdict)
  let html := pyReplace html ("\x7b\x7bCONFIDENCE\x7d\x7d".data) secs.confidence
  let html := pyReplace html ("\x7b\x7bCONFIDENCE_CLASS\x7d\x7d".data)
      (if secs.confidence.isEmpty then [] else toLowerL secs.confidence)
  let html := pyReplace html ("\x7b\x7bVERDICT_RATIONALE\x7d\x7d".data) secs.verdict_rationale
  let html := pyReplace html ("\x7b\x7bTERMS_SECTION\x7d\x7d".data) (termsSection secs)
  let risks_html := ("<ul class=\"risk-list\">".data) ++
      secs.risks.foldl (fun a r => a ++ riskPiece r) [] ++ ("</ul>".data) ++
      (if !secs.info_gaps.isEmpty then
        ("\n        <div class=\"info-gaps\">\n            <div class=\"info-gaps-title\">Information Gaps</div>\n            ".data) ++
        secs.info_gaps ++ ("\n        </div>".data)
       else [])
  let html := pyReplace html ("\x7b\x7bRISKS\x7d\x7d".data) risks_html
  let html := pyReplace html ("\x7b\x7bDD_PRIORITIES\x7d\x7d".data)
      (("<ul class=\"dd-list\">".data) ++
       secs.dd_priorities.foldl (fun a p => a ++ ("<li>".data) ++ p ++ ("</li>".data)) [] ++
       ("</ul>".data))
  let html := pyReplace html ("\x7b\x7bBOTTOM_LINE\x7d\x7d".data)
      (pyReplace (pyReplace secs.bottom_line ("<p>".data) []) ("</p>".data) [])
  if !bull_case.isEmpty && !bear_case.isEmpty then
    let html := pyReplace html ("\x7b\x7bBULL_ANALYST\x7d\x7d".data)
        (markdown_to_simple_html bull_case)
    let html := pyReplace html ("\x7b\x7bBEAR_ANALYST\x7d\x7d".data)
        (markdown_to_simple_html bear_case)
    let html := pyReplace html ("\x7b\x7bDELIBERATION\x7d\x7d".data)
        (if deliberation.isEmpty then [] else markdown_to_simple_html deliberation)
    pyReplace html ("\x7b\x7bANALYST_SECTIONS\x7d\x7d".data) []
  else
    reSub mAppendix 0 html

/-- A *title line* of the sectionizer: a line whose stripped form starts
with a single-hash marker `'# '` but not with `'## '`. -/
def isTitleLine (l : Str) : Bool :=
  startsW (stripL l) ("# ".data) && !startsW (stripL l) ("## ".data)

/-- A plain body line: contains no newline, its stripped form starts with
no `#` marker and is not a horizontal rule. -/
def plainBodyLine (l : Str) : Prop :=
  ('\n' ∉ l) ∧ startsW (stripL l) ("#".data) = false ∧ stripL l ≠ ("---".data)

/-- Claim C6's row-acceptance rule, transcribed from the claim's wording:
a line yields a row iff it starts with a pipe, contains no `---`, and
after splitting on pipes (dropping the first and last tokens, trimming
each cell) has at least 3 cells whose first cell is neither the literal
header word `Criterion` (case-insensitively) nor empty. -/
def fitRowSpec (l0 : Str) : Option FitRow :=
  let l := stripL l0
  if startsW l ("|".data) && !containsL ("---".data) l then
    match ((splitOnChar '|' l).drop 1).dropLast.map stripL with
    | c0 :: c1 :: c2 :: _ =>
      if toLowerL c0 ≠ ("criterion".data) ∧ c0 ≠ [] then some ⟨c0, c1, c2⟩ else none
    | _ => none
  else none

/-- Claim C3's rationale-line condition, transcribed from the claim's
wording: non-empty, does not start with a heading marker or a bullet
marker (`-` or `*`), and does not contain the word `Confidence`. -/
def specC3cond (t : Str) : Bool :=
  !t.isEmpty && !startsW t ("#".data) && !startsW t ("-".data) &&
  !startsW t ("*".data) && !containsL ("Confidence".data) t

/-- Claim C3's prescribed rationale: the first qualifying line, with bold
markers converted to strong-emphasis tags. -/
def specC3rationale (text : Str) : Option Str :=
  ((splitNl text).find? (fun l => specC3cond (stripL l))).map (fun l => boldSub (stripL l))

/-- The effective condition under which the `parse_verdict` line loop
takes a line (stripped) as the rationale and stops: the line survives the
verdict and confidence branches and satisfies the rationale branch's own
test.  A line starting with `-` is *not* excluded. -/
def pvRatCond (l : Str) : Bool :=
  let t := stripL l
  !t.isEmpty && !startsW t ("#".data) && !startsW t ("*".data) &&
  !containsL ("Confidence".data) t && !(decide (t ∈ bareVerdicts))

/-- The branch of `save_section`'s dispatch chain that a section name
reaches: `0` = opportunity, `1` = snapshot, `2` = market,
`3` = competition, `4` = team, `5` = investors, `6` = fit, `7` = bull,
`8` = bear, `9` = key debates, `10` = recommendation, `11` = terms,
`12` = risks, `13` = due diligence, `14` = bottom line, `15` = none
(content discarded).  The conditions are written exactly as in
`save_section`, in the same order. -/
def sectionTarget (name : Str) : Nat :=
  if containsL ("OPPORTUNITY".data) name then 0
  else if containsL ("SNAPSHOT".data) name then 1
  else if containsL ("MARKET".data) name then 2
  else if containsL ("COMPETITIVE".data) name || containsL ("COMPETITION".data) name then 3
  else if containsL ("TEAM".data) name then 4
  else if containsL ("INVESTOR".data) name || containsL ("EXISTING INVESTOR".data) name then 5
  else if containsL ("FIT".data) name then 6
  else if containsL ("BULL".data) name then 7
  else if containsL ("BEAR".data) name then 8
  else if containsL ("KEY DEBATE".data) name || containsL ("DEBATES".data) name then 9
  else if containsL ("RECOMMENDATION".data) name then 10
  else if containsL ("TERMS".data) name then 11
  else if containsL ("RISK".data) name then 12
  else if containsL ("DUE DILIGENCE".data) name || containsL ("DD".data) name then 13
  else if containsL ("BOTTOM".data) name then 14
  else 15

/-- The action of branch `k` of `save_section`'s dispatch chain on the
`sections` dictionary, given the stripped joined section text: the branch
bodies of `save_section` keyed by the branch number computed by
`sectionTarget` (`15` and above: no branch matched, the content is
discarded). -/
def applyTarget : Nat → Sections → Str → Sections
  | 0, secs, text => { secs with opportunity := markdown_to_html text }
  | 1, secs, text => { secs with snapshot := parse_snapshot text }
  | 2, secs, text => { secs with market := markdown_to_html text }
  | 3, secs, text => { secs with competition := markdown_to_html text }
  | 4, secs, text => { secs with team := markdown_to_html text true }
  | 5, secs, text => { secs with investors := markdown_to_html text }
  | 6, secs, text => { secs with fit_table := (parse_fit_table text).1,
                                 overall_fit := (parse_fit_table text).2 }
  | 7, secs, text => { secs with bull_case := parse_bullet_points text }
  | 8, secs, text => { secs with bear_case := parse_bullet_points text }
  | 9, secs, text => { secs with key_debates := parse_debates text }
  | 10, secs, text =>
      { secs with verdict := if (parse_verdict text).1.isEmpty then secs.verdict
                             else (parse_verdict text).1,
                  confidence := if (parse_verdict text).2.1.isEmpty then secs.confidence
                                else (parse_verdict text).2.1,
                  verdict_rationale := (parse_verdict text).2.2 }
  | 11, secs, text => { secs with terms := parse_terms text }
  | 12, secs, text => { secs with risks := (parse_risks text).1,
                                  info_gaps := (parse_risks text).2 }
  | 13, secs, text => { secs with dd_priorities := parse_dd text }
  | 14, secs, text => { secs with bottom_line := markdown_to_html text }
  | _ + 15, secs, _ => secs

/-- Loop invariant of `parse_analysis` (claim C9): every line of the
current section body and of every logged section body is a non-title line
containing no newline, and logged bodies are non-empty. -/
def PAInv (st : PAState) : Prop :=
  (∀ l ∈ st.content, isTitleLine l = false ∧ '\n' ∉ l) ∧
  (∀ p ∈ st.savedLog, p.2 ≠ [] ∧ ∀ l ∈ p.2, isTitleLine l = false ∧ '\n' ∉ l)

theorem containsL_spec (pat s : Str) : containsL pat s = true ↔ pat <:+: s := by
  induction s with
  | nil => simp [containsL, List.isEmpty_iff, List.infix_nil]
  | cons c rest ih =>
    simp only [containsL, Bool.or_eq_true, List.isPrefixOf_iff_prefix, ih,
      List.infix_cons_iff]

theorem startsW_iff (s pat : Str) : startsW s pat = true ↔ pat <+: s :=
  List.isPrefixOf_iff_prefix

theorem containsL_mono {p q s : Str} (h : p <:+: q) (hq : containsL q s = true) :
    containsL p s = true := by
  rw [containsL_spec] at hq ⊢
  exact h.trans hq

theorem foldl_append_piece {α : Type} (f : α → Str) :
    ∀ (l : List α) (acc : Str),
      l.foldl (fun a x => a ++ f x) acc = acc ++ (l.map f).flatten := by
  intro l
  induction l with
  | nil => simp
  | cons x xs ih => intro acc; simp [List.foldl_cons, ih]

theorem appendL_ne_nil {a b : Str} (h : a ≠ []) : a ++ b ≠ [] := by
  intro he
  exact h (List.append_eq_nil.mp he).1

theorem fitStep_fst (acc : List FitRow × Str) (l : Str) :
    (fitStep acc l).1 = acc.1 ++ (fitRowSpec l).toList := by
  unfold fitStep fitRowSpec
  by_cases hc : (startsW (stripL l) ("|".data) && !containsL ("---".data) (stripL l)) = true
  · simp only [hc, if_true]
    rcases hcells : ((splitOnChar '|' (stripL l)).drop 1).dropLast.map stripL with
      _ | ⟨c0, _ | ⟨c1, _ | ⟨c2, rest⟩⟩⟩ <;> simp only []
    · simp
    · simp
    · simp
    · by_cases h0 : toLowerL c0 = ("criterion".data) ∨ toLowerL c0 = []
      · have h0' : ¬(toLowerL c0 ≠ ("criterion".data) ∧ c0 ≠ []) := by
          rcases h0 with h | h
          · intro hh; exact hh.1 h
          · intro hh; exact hh.2 (by simpa [toLowerL] using h)
        simp [h0, h0']
      · have hne1 : ¬toLowerL c0 = ("criterion".data) := fun h => h0 (Or.inl h)
        have hne2 : ¬toLowerL c0 = [] := fun h => h0 (Or.inr h)
        have hne3 : c0 ≠ [] := fun h => hne2 (by simp [toLowerL, h])
        simp [h0, hne1, hne2, hne3]
  · simp [hc]

theorem fit_rows_eq : ∀ (ls : List Str) (acc : List FitRow × Str),
    (ls.foldl fitStep acc).1 = acc.1 ++ ls.filterMap fitRowSpec := by
  intro ls
  induction ls with
  | nil => simp
  | cons l ls ih =>
    intro acc
    rw [List.foldl_cons, ih, List.filterMap_cons]
    rcases h : fitRowSpec l with _ | r <;>
      simp [fitStep_fst acc l, h]

/-- C6.  Fit-table row filtering: a line of a FIT-section text yields a
table row exactly when it starts with a pipe, contains no `---`, and
after splitting on pipes (dropping the outer tokens and trimming) has at
least 3 cells with a first cell that is neither `Criterion`
(case-insensitively) nor empty — `parse_fit_table`'s rows are precisely
the `fitRowSpec` survivors of the section's lines, in order; and the
three lines of the claim's example produce exactly the single row
`{criterion: Food System Impact, rating: Strong, assessment: Direct impact}`. -/
theorem c6_fit_row_filtering :
    (∀ text : Str, (parse_fit_table text).1 = (splitNl text).filterMap fitRowSpec) ∧
    (parse_fit_table ("| Criterion | Rating | Assessment |\n|---|---|---|\n| Food System Impact | Strong | Direct impact |".data)).1 =
      [⟨("Food System Impact".data), ("Strong".data), ("Direct impact".data)⟩] := by
  constructor
  · intro text
    unfold parse_fit_table
    rw [fit_rows_eq]
    rfl
  · decide

/-- C5.  Terms conditional inclusion: the proposed-terms block substituted
into the output is non-empty exactly when `verdict = PURSUE` and the terms
list is non-empty; when rendered it is the header followed by the per-term
pieces in original order; a rationale-labelled entry contributes nothing
of its own (it is nested inside the ticket-size piece by `termPiece`),
while every other entry contributes a non-empty independent item. -/
theorem c5_terms_conditional :
    ∀ secs : Sections,
      (termsSection secs = [] ↔ ¬(secs.verdict = ("PURSUE".data) ∧ secs.terms ≠ [])) ∧
      (secs.verdict = ("PURSUE".data) → secs.terms ≠ [] →
        termsSection secs =
          termsHeader ++
            (secs.terms.map (termPiece (ticket_rationale secs.terms))).flatten ++
            ("</div></div>".data)) ∧
      (∀ t ∈ secs.terms, containsL ("rationale".data) (toLowerL t.label) = true →
        termPiece (ticket_rationale secs.terms) t = []) ∧
      (∀ t ∈ secs.terms, containsL ("rationale".data) (toLowerL t.label) = false →
        termPiece (ticket_rationale secs.terms) t ≠ []) := by
  intro secs
  refine ⟨⟨?_, ?_⟩, ?_, ?_, ?_⟩
  · intro h hcond
    rw [termsSection, if_pos hcond] at h
    simp [List.append_eq_nil] at h
  · intro hn
    rw [termsSection, if_neg hn]
  · intro hv ht
    rw [termsSection, if_pos ⟨hv, ht⟩, foldl_append_piece]
  · intro t _ hr
    simp [termPiece, hr]
  · intro t _ hr
    unfold termPiece
    rw [hr, if_neg (by simp)]
    by_cases h2 : (containsL ("ticket size".data) (toLowerL t.label) &&
        !(ticket_rationale secs.terms).isEmpty) = true
    · rw [if_pos h2]
      apply appendL_ne_nil; apply appendL_ne_nil; apply appendL_ne_nil
      apply appendL_ne_nil; apply appendL_ne_nil; apply appendL_ne_nil
      decide
    · rw [if_neg h2]
      apply appendL_ne_nil; apply appendL_ne_nil; apply appendL_ne_nil
      apply appendL_ne_nil
      decide

theorem investor_contains_of_existing {name : Str}
    (h : containsL ("EXISTING INVESTOR".data) name = true) :
    containsL ("INVESTOR".data) name = true :=
  containsL_mono (by decide) h

/-- C10.  Classification precedence: for a section whose (uppercased)
name contains `FIT` but none of the keywords of the earlier branches of
`save_section`'s dispatch chain, the fit-table extractor runs — setting
`fit_table` and `overall_fit` from the section text — and the `risks` and
`info_gaps` fields are left unchanged, even when the name also contains
`RISK` (as in `RISK FIT`). -/
theorem c10_classification_precedence :
    ∀ (secs : Sections) (name : Str) (content : List Str),
      containsL ("FIT".data) name = true →
      containsL ("OPPORTUNITY".data) name = false →
      containsL ("SNAPSHOT".data) name = false →
      containsL ("MARKET".data) name = false →
      containsL ("COMPETITIVE".data) name = false →
      containsL ("COMPETITION".data) name = false →
      containsL ("TEAM".data) name = false →
      containsL ("INVESTOR".data) name = false →
      (save_section secs name content).fit_table =
          (parse_fit_table (stripL (intercalNl content))).1 ∧
      (save_section secs name content).overall_fit =
          (parse_fit_table (stripL (intercalNl content))).2 ∧
      (save_section secs name content).risks = secs.risks ∧
      (save_section secs name content).info_gaps = secs.info_gaps := by
  intro secs name content hFit hOpp hSnap hMark hCompv hComp hTeam hInv
  have hEI : containsL ("EXISTING INVESTOR".data) name = false := by
    rcases h : containsL ("EXISTING INVESTOR".data) name
    · rfl
    · rw [investor_contains_of_existing h] at hInv
      exact absurd hInv (by simp)
  unfold save_section
  rw [if_neg (by simp [hOpp]), if_neg (by simp [hSnap]), if_neg (by simp [hMark]),
      if_neg (by simp [hCompv, hComp]), if_neg (by simp [hTeam]),
      if_neg (by simp [hInv, hEI]), if_pos (by simp [hFit])]
  exact ⟨rfl, rfl, rfl, rfl⟩

/-- Witness for C10 at the section name `RISK FIT` of the claim. -/
theorem c10_classification_precedence_witness :
    (save_section (Sections.mk [] [] [] [] [] [] [] [] [] [] [] [] [] [] [] [] [CasePoint.mk ("r".data) ("d".data)] ("g".data) [] []) ("RISK FIT".data) [("| A | B | C |".data)]).fit_table =
        (parse_fit_table (stripL (intercalNl [("| A | B | C |".data)]))).1 ∧
    (save_section (Sections.mk [] [] [] [] [] [] [] [] [] [] [] [] [] [] [] [] [CasePoint.mk ("r".data) ("d".data)] ("g".data) [] []) ("RISK FIT".data) [("| A | B | C |".data)]).overall_fit =
        (parse_fit_table (stripL (intercalNl [("| A | B | C |".data)]))).2 ∧
    (save_section (Sections.mk [] [] [] [] [] [] [] [] [] [] [] [] [] [] [] [] [CasePoint.mk ("r".data) ("d".data)] ("g".data) [] []) ("RISK FIT".data) [("| A | B | C |".data)]).risks =
        [CasePoint.mk ("r".data) ("d".data)] ∧
    (save_section (Sections.mk [] [] [] [] [] [] [] [] [] [] [] [] [] [] [] [] [CasePoint.mk ("r".data) ("d".data)] ("g".data) [] []) ("RISK FIT".data) [("| A | B | C |".data)]).info_gaps =
        ("g".data) :=
  c10_classification_precedence _ ("RISK FIT".data) _ (by decide) (by decide)
    (by decide) (by decide) (by decide) (by decide) (by decide) (by decide)

/-- Witness for C5 on a PURSUE memo with a ticket-size entry, a rationale
entry and one further term. -/
theorem c5_terms_conditional_witness :
    termsSection (Sections.mk [] [] [] [] [] [] [] [] [] [] [] [] ("PURSUE".data) [] [] [KV.mk ("Ticket Size".data) ("500K".data), KV.mk ("Ticket Rationale".data) ("fits".data), KV.mk ("Valuation".data) ("fair".data)] [] [] [] []) =
      termsHeader ++
        (([KV.mk ("Ticket Size".data) ("500K".data), KV.mk ("Ticket Rationale".data) ("fits".data), KV.mk ("Valuation".data) ("fair".data)]).map
          (termPiece (ticket_rationale [KV.mk ("Ticket Size".data) ("500K".data), KV.mk ("Ticket Rationale".data) ("fits".data), KV.mk ("Valuation".data) ("fair".data)]))).flatten ++
        ("</div></div>".data) :=
  (c5_terms_conditional _).2.1 rfl (by decide)

/-- C4 counterexample: the RISK-section text `hello` consists of a single
non-empty line with no word `Information`, scanned outside the risk list;
the claim prescribes that it be appended to `info_gaps`, but `parse_risks`
returns an empty `info_gaps`. -/
theorem c4_counterexample :
    ("hello".data ≠ ([] : Str)) ∧
    containsL ("Information".data) ("hello".data) = false ∧
    (parse_risks ("hello".data)).1 = [] ∧
    (parse_risks ("hello".data)).2 = [] := by decide

/-- C4 amended.  Outside the risk list, a non-marker line is appended
(space-joined) to `info_gaps` only when the accumulated `info_gaps` text
is already non-empty and the line is non-empty and free of the word
`Information`; otherwise `info_gaps` is left unchanged — in particular
lines seen before a seeding `Information Gaps` line are discarded.  Once
seeded, accumulation does cross blank lines, as in the closed example. -/
theorem c4_info_gaps_amended :
    (∀ (risks : List CasePoint) (gaps : Str) (l : Str),
      containsL ("Critical Risks".data) (stripL l) = false →
      containsL ("Key Risks".data) (stripL l) = false →
      containsL ("Information Gaps".data) (stripL l) = false →
      riskStep (risks, gaps, false) l =
        (risks,
         (if gaps ≠ [] ∧ stripL l ≠ [] ∧
             containsL ("Information".data) (stripL l) = false
          then gaps ++ ' ' :: stripL l
          else gaps),
         false)) ∧
    ((parse_risks ("Information Gaps: a\nb c\n\nd".data)).2 = ("a b c d".data)) := by
  constructor
  · intro risks gaps l h1 h2 h3
    by_cases he : stripL l = [] <;>
      by_cases hi : containsL ("Information".data) (stripL l) = true <;>
      by_cases hg : gaps = [] <;>
      simp [riskStep, h1, h2, h3, he, hi, hg, List.isEmpty_iff,
        (by decide : containsL ("Critical Risks".data) ([] : Str) = false),
        (by decide : containsL ("Key Risks".data) ([] : Str) = false),
        (by decide : containsL ("Information Gaps".data) ([] : Str) = false)]
  · decide

/-- Witness for C4's amended accumulation rule on a seeded state. -/
theorem c4_info_gaps_amended_witness :
    riskStep ([], ("a".data), false) ("b c".data) = ([], ("a b c".data), false) := by
  have h := c4_info_gaps_amended.1 [] ("a".data) ("b c".data)
    (by decide) (by decide) (by decide)
  rw [h]
  decide

theorem doSave_nameSets (st : PAState) : (doSave st).nameSets = st.nameSets := by
  unfold doSave; split <;> rfl

theorem doSave_verdictSets (st : PAState) : (doSave st).verdictSets = st.verdictSets := by
  unfold doSave; split <;> rfl

theorem paStep_counters (st : PAState) (l : Str) :
    (paStep st l).nameSets + (paStep st l).verdictSets =
      st.nameSets + st.verdictSets + (if isTitleLine l = true then 1 else 0) := by
  by_cases h : (startsW (stripL l) ("# ".data) && !startsW (stripL l) ("## ".data)) = true
  · simp only [paStep, isTitleLine, if_pos h]
    split <;> simp <;> omega
  · simp only [paStep, isTitleLine, if_neg h]
    split
    · simp [doSave_nameSets, doSave_verdictSets]
    · split
      · simp
      · split <;> simp

theorem paRun_counters : ∀ (ls : List Str) (st : PAState),
    (ls.foldl paStep st).nameSets + (ls.foldl paStep st).verdictSets =
      st.nameSets + st.verdictSets + (ls.filter isTitleLine).length := by
  intro ls
  induction ls with
  | nil => intro st; simp
  | cons l ls ih =>
    intro st
    rw [List.foldl_cons, ih, paStep_counters, List.filter_cons]
    by_cases h : isTitleLine l = true
    · simp [h]
      omega
    · simp [h]

/-- C8 counterexample: in the two-title-line document `# A`, `# B`, the
title-line mechanism assigns `company_name` twice (the second assignment
overwriting the first), so the mechanism does not set it at most once. -/
theorem c8_counterexample :
    (paRun ("# A\n# B".data)).nameSets = 2 ∧
    ¬((paRun ("# A\n# B".data)).nameSets ≤ 1) ∧
    (parse_analysis ("# A\n# B".data)).company_name = ("B".data) := by decide

/-- C8 amended.  Each title line performs exactly one assignment, either
to `company_name` or to `verdict`, so the two assignment counts sum to
the number of title lines; hence over a document with at most one title
line each field is set at most once (with several title lines, the later
assignments overwrite the earlier ones). -/
theorem c8_title_single_set_amended :
    ∀ s : Str,
      ((paRun s).nameSets + (paRun s).verdictSets =
        ((splitNl s).filter isTitleLine).length) ∧
      (((splitNl s).filter isTitleLine).length ≤ 1 →
        (paRun s).nameSets ≤ 1 ∧ (paRun s).verdictSets ≤ 1) := by
  intro s
  have h : (paRun s).nameSets + (paRun s).verdictSets =
      ((splitNl s).filter isTitleLine).length := by
    unfold paRun
    rw [doSave_nameSets, doSave_verdictSets, paRun_counters]
    simp [initPA]
  exact ⟨h, fun hle => by omega⟩

/-- Witness for C8's amended rule on a one-title-line document. -/
theorem c8_title_single_set_amended_witness :
    (paRun ("# Acme".data)).nameSets ≤ 1 ∧ (paRun ("# Acme".data)).verdictSets ≤ 1 :=
  (c8_title_single_set_amended ("# Acme".data)).2 (by decide)

theorem reSub_match_some {m : Str → Option (Nat × Str)} {c : Char} {rest : Str}
    {n : Nat} {rep : Str} (h : m (c :: rest) = some (n + 1, rep)) :
    reSub m 0 (c :: rest) = rep ++ reSub m n rest := by
  simp only [reSub, h]

theorem reSub_skip (m : Str → Option (Nat × Str)) :
    ∀ (chunk post : Str), reSub m chunk.length (chunk ++ post) = reSub m 0 post := by
  intro chunk
  induction chunk with
  | nil => intro post; rfl
  | cons c cs ih =>
    intro post
    simp only [List.cons_append, List.length_cons, reSub]
    exact ih post

theorem findRParen_append (url post : Str) (h : ')' ∉ url) :
    findRParen (url ++ ')' :: post) = some url.length := by
  induction url with
  | nil => simp [findRParen]
  | cons c cs ih =>
    have hc : c ≠ ')' := fun hcc => h (hcc ▸ List.mem_cons_self c cs)
    have hcs : ')' ∉ cs := fun hm => h (List.mem_cons_of_mem c hm)
    simp [findRParen, hc, ih hcs]

theorem etScan_cons_ne {c : Char} (hc : c ≠ ']') (k : Nat) (rest : Str) :
    etScan k (c :: rest) = etScan (k + 1) rest := by
  simp [etScan, hc]

theorem etScan_append (post : Str) :
    ∀ (label : Str), label ≠ [] → (']' ∉ label) → ∀ k : Nat,
      etScan k (label ++ ']' :: '(' :: ')' :: post) = some (k + label.length) := by
  intro label
  induction label with
  | nil => intro h; exact absurd rfl h
  | cons c cs ih =>
    intro _ hmem k
    have hc : c ≠ ']' := fun hcc => hmem (hcc ▸ List.mem_cons_self c cs)
    have hcs : ']' ∉ cs := fun hm => hmem (List.mem_cons_of_mem c hm)
    rw [List.cons_append, etScan_cons_ne hc]
    rcases hcase : cs with _ | ⟨d, ds⟩
    · simp [etScan]
    · rw [← hcase, ih (by simp [hcase]) hcs (k + 1)]
      simp only [List.length_cons, Option.some.injEq]
      omega

/-- C7.  Empty-citation stripping: the inline renderer removes every
empty-label link `[](url)` and every empty-target link `[label]()`
(first two substitutions) before remaining links become anchors (third
substitution) and bold is converted (fourth); the claim's round-trip
input renders with exactly one anchor for `this` and no other anchor
artifacts. -/
theorem c7_empty_citation :
    (markdown_to_html ("See [this](https://x.com) and []( ) and [nothing]().".data) =
      ("<p>See <a href=\"https://x.com\" target=\"_blank\" class=\"citation\">this</a> and  and .</p>".data)) ∧
    (∀ (text : Str) (preserve : Bool),
      markdown_to_html text preserve =
        intercalNl ((splitParas (reSub mBold 0 (reSub mLink 0 (reSub mEmptyTarget 0
          (reSub mEmptyLabel 0 text))))).filterMap (paraHtml preserve))) ∧
    (∀ url post : Str, (')' ∉ url) →
      reSub mEmptyLabel 0 (("[](".data) ++ url ++ ')' :: post) =
        reSub mEmptyLabel 0 post) ∧
    (∀ label post : Str, label ≠ [] → (']' ∉ label) →
      reSub mEmptyTarget 0 ('[' :: label ++ ("]()".data) ++ post) =
        reSub mEmptyTarget 0 post) := by
  refine ⟨by decide, fun _ _ => rfl, ?_, ?_⟩
  · intro url post hnp
    have hm : mEmptyLabel ('[' :: ']' :: '(' :: (url ++ ')' :: post)) =
        some (3 + url.length + 1, ([] : Str)) := by
      simp [mEmptyLabel, findRParen_append url post hnp]
    calc reSub mEmptyLabel 0 (("[](".data) ++ url ++ ')' :: post)
        = reSub mEmptyLabel 0 ('[' :: ']' :: '(' :: (url ++ ')' :: post)) := rfl
      _ = [] ++ reSub mEmptyLabel (3 + url.length) (']' :: '(' :: (url ++ ')' :: post)) :=
          reSub_match_some hm
      _ = reSub mEmptyLabel ((']' :: '(' :: (url ++ [')'])).length)
            ((']' :: '(' :: (url ++ [')'])) ++ post) := by
          rw [List.nil_append]
          refine congr (congrArg _ (by simp; omega)) ?_
          simp [List.append_assoc]
      _ = reSub mEmptyLabel 0 post := reSub_skip _ _ _
  · intro label post hne hmem
    have hm : mEmptyTarget ('[' :: (label ++ ']' :: '(' :: ')' :: post)) =
        some (1 + label.length + 3, ([] : Str)) := by
      simp [mEmptyTarget, etScan_append post label hne hmem 0]
    calc reSub mEmptyTarget 0 ('[' :: label ++ ("]()".data) ++ post)
        = reSub mEmptyTarget 0 ('[' :: (label ++ ']' :: '(' :: ')' :: post)) := by
          refine congrArg _ ?_
          simp [List.append_assoc]
      _ = [] ++ reSub mEmptyTarget (1 + label.length + 2) (label ++ ']' :: '(' :: ')' :: post) := by
          refine Eq.trans (reSub_match_some (n := 1 + label.length + 2) ?_) rfl
          rw [show (1 + label.length + 2) + 1 = 1 + label.length + 3 by omega]
          exact hm
      _ = reSub mEmptyTarget ((label ++ [']', '(', ')']).length)
            ((label ++ [']', '(', ')']) ++ post) := by
          rw [List.nil_append]
          refine congr (congrArg _ (by simp; omega)) ?_
          simp [List.append_assoc]
      _ = reSub mEmptyTarget 0 post := reSub_skip _ _ _

/-- Witness for C7's removal rules on concrete links. -/
theorem c7_empty_citation_witness :
    (reSub mEmptyLabel 0 (("[](".data) ++ ("u".data) ++ ')' :: ("x".data)) =
      reSub mEmptyLabel 0 ("x".data)) ∧
    (reSub mEmptyTarget 0 ('[' :: ("lab".data) ++ ("]()".data) ++ ("y".data)) =
      reSub mEmptyTarget 0 ("y".data)) :=
  ⟨c7_empty_citation.2.2.1 ("u".data) ("x".data) (by decide),
   c7_empty_citation.2.2.2 ("lab".data) ("y".data) (by decide) (by decide)⟩

theorem hash_starts {t : Str} (h : t ∈ hashVerdicts) :
    startsW t ("#".data) = true := by
  simp only [hashVerdicts] at h
  fin_cases h <;> decide

theorem confColon_contains {t : Str}
    (h : (containsL ("**Confidence:**".data) t || containsL ("Confidence:".data) t) = true) :
    containsL ("Confidence".data) t = true := by
  rcases Bool.or_eq_true_iff.mp h with h1 | h2
  · exact containsL_mono (by decide) h1
  · exact containsL_mono (by decide) h2

theorem mBold_cons_ne {c : Char} (hc : c ≠ '*') (rest : Str) :
    mBold (c :: rest) = none := by
  unfold mBold
  split
  · next heq =>
    injection heq with h1 _
    exact absurd h1 hc
  · rfl

theorem reSub_match_none {m : Str → Option (Nat × Str)} {c : Char} {rest : Str}
    (h : m (c :: rest) = none) :
    reSub m 0 (c :: rest) = c :: reSub m 0 rest := by
  simp only [reSub, h]

theorem boldSub_ne_nil {t : Str} (hne : t ≠ []) (hstar : startsW t ("*".data) = false) :
    boldSub t ≠ [] := by
  rcases t with _ | ⟨c, rest⟩
  · exact absurd rfl hne
  · have hc : c ≠ '*' := by
      intro h
      subst h
      simp [startsW, List.isPrefixOf] at hstar
    rw [boldSub, reSub_match_none (mBold_cons_ne hc rest)]
    exact List.cons_ne_nil c _

theorem pvLoop_rationale :
    ∀ (ls : List Str) (v c : Str),
      (pvLoop v c ls).2.2 =
        (match ls.find? pvRatCond with
         | some l => boldSub (stripL l)
         | none => []) := by
  intro ls
  induction ls with
  | nil => intro v c; rfl
  | cons l ls ih =>
    intro v c
    by_cases hcond : pvRatCond l = true
    · rw [List.find?_cons_of_pos _ hcond]
      have h' := hcond
      simp only [pvRatCond, Bool.and_eq_true, Bool.not_eq_true',
        decide_eq_false_iff_not, List.isEmpty_iff] at h'
      obtain ⟨⟨⟨⟨h1, h2⟩, h3⟩, h4⟩, h5⟩ := h'
      have hb1 : stripL l ∉ hashVerdicts := fun hm => by
        rw [hash_starts hm] at h2
        exact absurd h2 (by simp)
      have hc1 : containsL ("**Confidence:**".data) (stripL l) = false := by
        rcases hx : containsL ("**Confidence:**".data) (stripL l)
        · rfl
        · rw [containsL_mono (by decide) hx] at h4
          exact absurd h4 (by simp)
      have hc2 : containsL ("Confidence:".data) (stripL l) = false := by
        rcases hx : containsL ("Confidence:".data) (stripL l)
        · rfl
        · rw [containsL_mono (by decide) hx] at h4
          exact absurd h4 (by simp)
      simp only [pvLoop]
      rw [if_neg hb1, if_neg h5, if_neg (by simp [hc1, hc2]),
        if_pos (by simp [h1, h2, h3, h4])]
    · rw [List.find?_cons_of_neg _ hcond]
      simp only [pvLoop]
      by_cases hb1 : stripL l ∈ hashVerdicts
      · rw [if_pos hb1]; exact ih _ _
      · rw [if_neg hb1]
        by_cases hb2 : stripL l ∈ bareVerdicts
        · rw [if_pos hb2]; exact ih _ _
        · rw [if_neg hb2]
          by_cases hb3 : (containsL ("**Confidence:**".data) (stripL l) ||
              containsL ("Confidence:".data) (stripL l)) = true
          · rw [if_pos hb3]
            rcases searchHML (stripL l) with _ | x
            · exact ih _ _
            · exact ih _ _
          · rw [if_neg hb3]
            have hb4 : ¬((!(stripL l).isEmpty && !startsW (stripL l) ("#".data) &&
                !startsW (stripL l) ("*".data) &&
                !containsL ("Confidence".data) (stripL l)) = true) := by
              intro hx
              apply hcond
              simp only [pvRatCond, Bool.and_eq_true, decide_eq_false_iff_not,
                Bool.not_eq_true'] at hx ⊢
              exact ⟨hx, by simpa using hb2⟩
            rw [if_neg hb4]
            exact ih _ _

/-- C3 counterexample: in the RECOMMENDATION text
`- bullet` / `The real rationale`, the claim's scan (which skips lines
starting with a bullet marker `-`) prescribes the rationale
`The real rationale`, but `parse_verdict` takes the bullet line itself:
the code only excludes lines starting with `#` or `*`, not `-`. -/
theorem c3_counterexample :
    (parse_verdict ("- bullet\nThe real rationale".data)).2.2 = ("- bullet".data) ∧
    specC3rationale ("- bullet\nThe real rationale".data) =
      some ("The real rationale".data) ∧
    ("- bullet".data) ≠ ("The real rationale".data) := by decide

/-- C3 amended.  The rationale produced by `parse_verdict` is the FIRST
line (in order, bold markers converted) that is non-empty, is not a bare
verdict token, does not start with `#` or `*` — a line starting with the
bullet marker `-` is *not* excluded — and does not contain the word
`Confidence`; the scan stops there.  If no such line exists, the
rationale is the ENTIRE section text with `#`-verdict markers and
bold-confidence markers stripped out, bold converted, and the result
trimmed. -/
theorem c3_rationale_amended :
    ∀ text : Str,
      (parse_verdict text).2.2 =
        (match (splitNl text).find? pvRatCond with
         | some l => boldSub (stripL l)
         | none => pvFallback text) := by
  intro text
  unfold parse_verdict
  have h := pvLoop_rationale (splitNl text) [] []
  rcases hf : (splitNl text).find? pvRatCond with _ | l
  · rw [hf] at h
    simp [h]
  · rw [hf] at h
    have hc := List.find?_some hf
    simp only [pvRatCond, Bool.and_eq_true, Bool.not_eq_true',
      decide_eq_false_iff_not, List.isEmpty_iff] at hc
    obtain ⟨⟨⟨⟨h1, h2⟩, h3⟩, h4⟩, h5⟩ := hc
    have hl : boldSub (stripL l) ≠ [] := by
      refine boldSub_ne_nil ?_ h3
      intro hx
      rw [hx] at h1
      simp at h1
    have hcond : ((pvLoop [] [] (splitNl text)).2.2).isEmpty = false := by
      rw [h]
      simpa [List.isEmpty_iff] using hl
    simp [hcond, h, hl]

theorem splitOnChar_ne_nil (sep : Char) : ∀ s : Str, splitOnChar sep s ≠ [] := by
  intro s
  induction s with
  | nil => simp [splitOnChar]
  | cons c rest ih =>
    by_cases hc : c = sep
    · simp [splitOnChar, hc]
    · simp only [splitOnChar, if_neg hc]
      rcases h : splitOnChar sep rest with _ | ⟨h1, t⟩
      · exact absurd h ih
      · simp

theorem mem_splitOnChar_not_sep (sep : Char) :
    ∀ (s : Str) (l : Str), l ∈ splitOnChar sep s → sep ∉ l := by
  intro s
  induction s with
  | nil =>
    intro l hl
    simp [splitOnChar] at hl
    subst hl
    simp
  | cons c rest ih =>
    intro l hl
    by_cases hc : c = sep
    · simp only [splitOnChar, if_pos hc] at hl
      rcases List.mem_cons.mp hl with rfl | hmem
      · simp
      · exact ih l hmem
    · simp only [splitOnChar, if_neg hc] at hl
      rcases hrec : splitOnChar sep rest with _ | ⟨h1, t⟩
      · exact absurd hrec (splitOnChar_ne_nil sep rest)
      · rw [hrec] at hl
        rcases List.mem_cons.mp hl with rfl | hmem
        · intro hmem2
          rcases List.mem_cons.mp hmem2 with heq | hmem3
          · exact hc heq.symm
          · exact (ih h1 (by rw [hrec]; exact List.mem_cons_self _ _)) hmem3
        · exact ih l (by rw [hrec]; exact List.mem_cons_of_mem _ hmem)

theorem splitOnChar_no_sep {sep : Char} :
    ∀ (s : Str), sep ∉ s → splitOnChar sep s = [s] := by
  intro s
  induction s with
  | nil => intro _; rfl
  | cons c rest ih =>
    intro h
    have hc : ¬(c = sep) := by
      intro he
      subst he
      exact h (List.mem_cons_self _ _)
    simp only [splitOnChar, if_neg hc, ih (fun hm => h (List.mem_cons_of_mem _ hm))]

theorem splitNl_append_cons (a : Str) (b : Str) (ha : '\n' ∉ a) :
    splitNl (a ++ '\n' :: b) = a :: splitNl b := by
  induction a with
  | nil => simp [splitNl, splitOnChar]
  | cons c cs ih =>
    have hc : ¬(c = '\n') := by
      intro he
      subst he
      exact ha (List.mem_cons_self _ _)
    have ih' := ih (fun hm => ha (List.mem_cons_of_mem _ hm))
    simp only [splitNl] at ih' ⊢
    rw [List.cons_append]
    simp only [splitOnChar, if_neg hc, ih']

theorem splitNl_intercalNl : ∀ (ls : List Str), ls ≠ [] → (∀ l ∈ ls, '\n' ∉ l) →
    splitNl (intercalNl ls) = ls := by
  intro ls
  induction ls with
  | nil => intro h; exact absurd rfl h
  | cons x t ih =>
    intro _ hno
    rcases t with _ | ⟨y, t'⟩
    · simp only [intercalNl, splitNl]
      exact splitOnChar_no_sep x (hno x (List.mem_cons_self _ _))
    · simp only [intercalNl]
      rw [splitNl_append_cons x _ (hno x (List.mem_cons_self _ _)),
        ih (by simp) (fun l hl => hno l (List.mem_cons_of_mem _ hl))]

theorem doSave_inv {st : PAState} (h : PAInv st) : PAInv (doSave st) := by
  unfold doSave
  split
  · next hcond =>
    refine ⟨h.1, ?_⟩
    intro p hp
    rcases List.mem_append.mp hp with hp1 | hp2
    · exact h.2 p hp1
    · rw [List.mem_singleton] at hp2
      subst hp2
      refine ⟨fun he => ?_, h.1⟩
      have he' : st.content = [] := he
      rw [he'] at hcond
      simp at hcond
  · exact h

theorem paStep_inv {st : PAState} {l : Str} (hnl : '\n' ∉ l) (h : PAInv st) :
    PAInv (paStep st l) := by
  by_cases h1 : (startsW (stripL l) ("# ".data) && !startsW (stripL l) ("## ".data)) = true
  · simp only [paStep, if_pos h1]
    split
    · exact h
    · exact h
  · simp only [paStep, if_neg h1]
    split
    · exact ⟨fun x hx => absurd hx (List.not_mem_nil x), (doSave_inv h).2⟩
    · split
      · exact h
      · split
        · refine ⟨?_, h.2⟩
          intro x hx
          rcases List.mem_append.mp hx with hx1 | hx2
          · exact h.1 x hx1
          · rw [List.mem_singleton] at hx2
            subst hx2
            refine ⟨?_, hnl⟩
            simp only [isTitleLine]
            simpa using h1
        · exact h

theorem paFold_inv : ∀ (ls : List Str) (st : PAState),
    (∀ l ∈ ls, '\n' ∉ l) → PAInv st → PAInv (ls.foldl paStep st) := by
  intro ls
  induction ls with
  | nil => intro st _ h; exact h
  | cons l t ih =>
    intro st hno h
    rw [List.foldl_cons]
    exact ih _ (fun x hx => hno x (List.mem_cons_of_mem _ hx))
      (paStep_inv (hno l (List.mem_cons_self _ _)) h)

theorem paRun_inv (s : Str) : PAInv (paRun s) := by
  unfold paRun
  refine doSave_inv (paFold_inv _ _ (fun l hl => ?_) ?_)
  · exact mem_splitOnChar_not_sep '\n' s l hl
  · exact ⟨fun x hx => absurd hx (List.not_mem_nil x),
      fun p hp => absurd hp (List.not_mem_nil p)⟩

theorem hash_title {t : Str} (h : t ∈ hashVerdicts) :
    startsW t ("# ".data) = true ∧ startsW t ("## ".data) = false := by
  simp only [hashVerdicts] at h
  fin_cases h <;> exact ⟨by decide, by decide⟩

/-- C9.  Title-line interception: a line whose stripped form starts with
`'# '` (but not `'## '`) is routed to the title/verdict branch of the
sectionizer and is never appended to any section body passed to
`save_section`; consequently no line of the joined section text that the
recommendation extractor re-splits ever strips to one of `# PURSUE`,
`# PASS`, `# MONITOR`, so `parse_verdict`'s matching of those lines
operates on input it can never receive from the sectionizer. -/
theorem c9_title_interception :
    ∀ (s : Str), ∀ p ∈ (paRun s).savedLog,
      (∀ l ∈ p.2, isTitleLine l = false) ∧
      (∀ l ∈ splitNl (intercalNl p.2), stripL l ∉ hashVerdicts) := by
  intro s p hp
  have hlog := (paRun_inv s).2 p hp
  constructor
  · exact fun l hl => (hlog.2 l hl).1
  · rw [splitNl_intercalNl p.2 hlog.1 (fun l hl => (hlog.2 l hl).2)]
    intro l hl hm
    have ht := (hlog.2 l hl).1
    have hpair := hash_title hm
    rw [isTitleLine, hpair.1, hpair.2] at ht
    simp at ht

/-- Witness for C9 on the document `### TEAM` / `x`, whose single saved
section is `("TEAM", ["x"])`. -/
theorem c9_title_interception_witness :
    isTitleLine ("x".data) = false ∧ stripL ("x".data) ∉ hashVerdicts :=
  ⟨(c9_title_interception ("### TEAM\nx".data) (("TEAM".data), [("x".data)])
      (by decide)).1 ("x".data) (by decide),
   (c9_title_interception ("### TEAM\nx".data) (("TEAM".data), [("x".data)])
      (by decide)).2 ("x".data) (by decide)⟩

theorem startsW_false_mono {s p q : Str} (hpq : p <+: q)
    (hp : startsW s p = false) : startsW s q = false := by
  rcases hx : startsW s q
  · rfl
  · rw [startsW_iff] at hx
    have : startsW s p = true := (startsW_iff s p).mpr (hpq.trans hx)
    rw [this] at hp
    exact absurd hp (by simp)

theorem paStep_plain {st : PAState} {l : Str} (hcur : st.cur ≠ [])
    (hl : plainBodyLine l) :
    paStep st l = { st with content := st.content ++ [l] } := by
  have h1 := startsW_false_mono (q := ("# ".data)) (by decide) hl.2.1
  have h2 := startsW_false_mono (q := ("## ".data)) (by decide) hl.2.1
  have h3 := startsW_false_mono (q := ("### ".data)) (by decide) hl.2.1
  have hcur' : st.cur.isEmpty = false := by
    rcases hx : st.cur with _ | _
    · exact absurd hx hcur
    · rfl
  simp [paStep, h1, h2, h3, hl.2.2, hcur']

theorem foldl_plain_body : ∀ (body : List Str) (st : PAState), st.cur ≠ [] →
    (∀ l ∈ body, plainBodyLine l) →
    body.foldl paStep st = { st with content := st.content ++ body } := by
  intro body
  induction body with
  | nil => intro st _ _; simp
  | cons l t ih =>
    intro st hcur hpl
    rw [List.foldl_cons, paStep_plain hcur (hpl l (List.mem_cons_self _ _)),
      ih { st with content := st.content ++ [l] } hcur
        (fun x hx => hpl x (List.mem_cons_of_mem _ hx))]
    simp

theorem save_section_recommendation (secs : Sections) (content : List Str) :
    save_section secs ("RECOMMENDATION".data) content =
      { secs with
        verdict := if (parse_verdict (stripL (intercalNl content))).1.isEmpty
                   then secs.verdict
                   else (parse_verdict (stripL (intercalNl content))).1,
        confidence := if (parse_verdict (stripL (intercalNl content))).2.1.isEmpty
                      then secs.confidence
                      else (parse_verdict (stripL (intercalNl content))).2.1,
        verdict_rationale := (parse_verdict (stripL (intercalNl content))).2.2 } := by
  unfold save_section
  rw [if_neg (by decide), if_neg (by decide), if_neg (by decide), if_neg (by decide),
      if_neg (by decide), if_neg (by decide), if_neg (by decide), if_neg (by decide),
      if_neg (by decide), if_neg (by decide), if_pos (by decide)]

/-- C2 corrected: counterexample.  In the document
`### RECOMMENDATION` / `PASS` / `### TEAM` / `x` / `# MONITOR`, the
RECOMMENDATION section supplies the verdict `PASS` but the title line
`# MONITOR`, processed after that section is finalized, supplies the
final verdict — so the RECOMMENDATION section's value is not final. -/
theorem c2_counterexample :
    (parse_verdict ("PASS".data)).1 = ("PASS".data) ∧
    (parse_analysis ("### RECOMMENDATION\nPASS\n### TEAM\nx\n# MONITOR".data)).verdict =
      ("MONITOR".data) ∧
    ("MONITOR".data) ≠ ("PASS".data) := by decide

/-- C2 amended.  The verdict is last-writer-wins between title-line
assignments and RECOMMENDATION-section finalizations: in the claim's
concrete document (`# PASS` title, then a RECOMMENDATION section whose
body contains `# PURSUE`) the final verdict is `PURSUE` (the `# PURSUE`
line is intercepted as a title line); in the common layout — title line
first, then a RECOMMENDATION section of plain body lines extending to the
end of the document — the section's non-empty verdict overrides the
title-line verdict, the title-line verdict stands when the section
supplies none, and the verdict is empty when neither supplies one. -/
theorem c2_verdict_precedence_amended :
    ((parse_analysis ("# PASS\n### RECOMMENDATION\n# PURSUE\nThis fits.".data)).verdict =
      ("PURSUE".data)) ∧
    (∀ body : List Str, body ≠ [] → (∀ l ∈ body, plainBodyLine l) →
      (parse_analysis (("# PASS\n### RECOMMENDATION\n".data) ++ intercalNl body)).verdict =
        (if (parse_verdict (stripL (intercalNl body))).1 = [] then ("PASS".data)
         else (parse_verdict (stripL (intercalNl body))).1)) ∧
    ((parse_analysis ("# PASS\n### TEAM\nx".data)).verdict = ("PASS".data)) ∧
    ((parse_analysis ("### RECOMMENDATION\nhello".data)).verdict = []) := by
  refine ⟨by decide, ?_, by decide, by decide⟩
  intro body hne hpl
  unfold parse_analysis paRun
  have hsplit : splitNl (("# PASS\n### RECOMMENDATION\n".data) ++ intercalNl body) =
      ("# PASS".data) :: ("### RECOMMENDATION".data) :: splitNl (intercalNl body) := by
    rw [show (("# PASS\n### RECOMMENDATION\n".data) ++ intercalNl body) =
        ("# PASS".data) ++ '\n' :: (("### RECOMMENDATION".data) ++ '\n' :: intercalNl body)
        from rfl,
      splitNl_append_cons _ _ (by decide), splitNl_append_cons _ _ (by decide)]
  rw [hsplit, splitNl_intercalNl body hne (fun l hl => (hpl l hl).1)]
  rw [List.foldl_cons, List.foldl_cons]
  rw [show paStep (paStep initPA ("# PASS".data)) ("### RECOMMENDATION".data) =
      PAState.mk
        (Sections.mk [] [] [] [] [] [] [] [] [] [] [] [] ("PASS".data) [] [] [] [] [] [] [])
        ("RECOMMENDATION".data) [] [] 0 1 from by decide]
  rw [foldl_plain_body body _ (by decide) hpl]
  unfold doSave
  rw [if_pos (by simp [hne, List.isEmpty_iff])]
  show (save_section _ ("RECOMMENDATION".data) ([] ++ body)).verdict = _
  rw [save_section_recommendation]
  by_cases hv : (parse_verdict (stripL (intercalNl ([] ++ body)))).1 = []
  · rw [List.nil_append] at hv ⊢
    simp [hv, List.isEmpty_iff]
  · rw [List.nil_append] at hv ⊢
    simp [hv, List.isEmpty_iff]

/-- Witness for C2's amended general rule on the one-line body
`MONITOR`. -/
theorem c2_verdict_precedence_amended_witness :
    (parse_analysis (("# PASS\n### RECOMMENDATION\n".data) ++
        intercalNl [("MONITOR".data)])).verdict =
      (if (parse_verdict (stripL (intercalNl [("MONITOR".data)]))).1 = []
       then ("PASS".data)
       else (parse_verdict (stripL (intercalNl [("MONITOR".data)]))).1) :=
  c2_verdict_precedence_amended.2.1 [("MONITOR".data)] (by decide)
    (by
      intro l hl
      simp only [List.mem_singleton] at hl
      subst hl
      exact ⟨by decide, by decide, by decide⟩)

theorem save_section_target (secs : Sections) (name : Str) (content : List Str) :
    save_section secs name content =
      applyTarget (sectionTarget name) secs (stripL (intercalNl content)) := by
  simp only [save_section, sectionTarget]
  generalize stripL (intercalNl content) = t
  by_cases h1 : containsL ("OPPORTUNITY".data) name = true
  · rw [if_pos h1, if_pos h1]
    rfl
  · rw [if_neg h1, if_neg h1]
    by_cases h2 : containsL ("SNAPSHOT".data) name = true
    · rw [if_pos h2, if_pos h2]
      rfl
    · rw [if_neg h2, if_neg h2]
      by_cases h3 : containsL ("MARKET".data) name = true
      · rw [if_pos h3, if_pos h3]
        rfl
      · rw [if_neg h3, if_neg h3]
        by_cases h4 : (containsL ("COMPETITIVE".data) name || containsL ("COMPETITION".data) name) = true
        · rw [if_pos h4, if_pos h4]
          rfl
        · rw [if_neg h4, if_neg h4]
          by_cases h5 : containsL ("TEAM".data) name = true
          · rw [if_pos h5, if_pos h5]
            rfl
          · rw [if_neg h5, if_neg h5]
            by_cases h6 : (containsL ("INVESTOR".data) name || containsL ("EXISTING INVESTOR".data) name) = true
            · rw [if_pos h6, if_pos h6]
              rfl
            · rw [if_neg h6, if_neg h6]
              by_cases h7 : containsL ("FIT".data) name = true
              · rw [if_pos h7, if_pos h7]
                rfl
              · rw [if_neg h7, if_neg h7]
                by_cases h8 : containsL ("BULL".data) name = true
                · rw [if_pos h8, if_pos h8]
                  rfl
                · rw [if_neg h8, if_neg h8]
                  by_cases h9 : containsL ("BEAR".data) name = true
                  · rw [if_pos h9, if_pos h9]
                    rfl
                  · rw [if_neg h9, if_neg h9]
                    by_cases h10 : (containsL ("KEY DEBATE".data) name || containsL ("DEBATES".data) name) = true
                    · rw [if_pos h10, if_pos h10]
                      rfl
                    · rw [if_neg h10, if_neg h10]
                      by_cases h11 : containsL ("RECOMMENDATION".data) name = true
                      · rw [if_pos h11, if_pos h11]
                        rfl
                      · rw [if_neg h11, if_neg h11]
                        by_cases h12 : containsL ("TERMS".data) name = true
                        · rw [if_pos h12, if_pos h12]
                          rfl
                        · rw [if_neg h12, if_neg h12]
                          by_cases h13 : containsL ("RISK".data) name = true
                          · rw [if_pos h13, if_pos h13]
                            rfl
                          · rw [if_neg h13, if_neg h13]
                            by_cases h14 : (containsL ("DUE DILIGENCE".data) name || containsL ("DD".data) name) = true
                            · rw [if_pos h14, if_pos h14]
                              rfl
                            · rw [if_neg h14, if_neg h14]
                              by_cases h15 : containsL ("BOTTOM".data) name = true
                              · rw [if_pos h15, if_pos h15]
                                rfl
                              · rw [if_neg h15, if_neg h15]
                                rfl

theorem applyTarget_opportunity : ∀ (k : Nat), k ≠ 0 → ∀ (secs : Sections) (t : Str),
    (applyTarget k secs t).opportunity = secs.opportunity
  | 0, h => absurd rfl h
  | 1, _ => fun _ _ => rfl
  | 2, _ => fun _ _ => rfl
  | 3, _ => fun _ _ => rfl
  | 4, _ => fun _ _ => rfl
  | 5, _ => fun _ _ => rfl
  | 6, _ => fun _ _ => rfl
  | 7, _ => fun _ _ => rfl
  | 8, _ => fun _ _ => rfl
  | 9, _ => fun _ _ => rfl
  | 10, _ => fun _ _ => rfl
  | 11, _ => fun _ _ => rfl
  | 12, _ => fun _ _ => rfl
  | 13, _ => fun _ _ => rfl
  | 14, _ => fun _ _ => rfl
  | _ + 15, _ => fun _ _ => rfl

theorem applyTarget_snapshot : ∀ (k : Nat), k ≠ 1 → ∀ (secs : Sections) (t : Str),
    (applyTarget k secs t).snapshot = secs.snapshot
  | 0, _ => fun _ _ => rfl
  | 1, h => absurd rfl h
  | 2, _ => fun _ _ => rfl
  | 3, _ => fun _ _ => rfl
  | 4, _ => fun _ _ => rfl
  | 5, _ => fun _ _ => rfl
  | 6, _ => fun _ _ => rfl
  | 7, _ => fun _ _ => rfl
  | 8, _ => fun _ _ => rfl
  | 9, _ => fun _ _ => rfl
  | 10, _ => fun _ _ => rfl
  | 11, _ => fun _ _ => rfl
  | 12, _ => fun _ _ => rfl
  | 13, _ => fun _ _ => rfl
  | 14, _ => fun _ _ => rfl
  | _ + 15, _ => fun _ _ => rfl

theorem applyTarget_market : ∀ (k : Nat), k ≠ 2 → ∀ (secs : Sections) (t : Str),
    (applyTarget k secs t).market = secs.market
  | 0, _ => fun _ _ => rfl
  | 1, _ => fun _ _ => rfl
  | 2, h => absurd rfl h
  | 3, _ => fun _ _ => rfl
  | 4, _ => fun _ _ => rfl
  | 5, _ => fun _ _ => rfl
  | 6, _ => fun _ _ => rfl
  | 7, _ => fun _ _ => rfl
  | 8, _ => fun _ _ => rfl
  | 9, _ => fun _ _ => rfl
  | 10, _ => fun _ _ => rfl
  | 11, _ => fun _ _ => rfl
  | 12, _ => fun _ _ => rfl
  | 13, _ => fun _ _ => rfl
  | 14, _ => fun _ _ => rfl
  | _ + 15, _ => fun _ _ => rfl

theorem applyTarget_competition : ∀ (k : Nat), k ≠ 3 → ∀ (secs : Sections) (t : Str),
    (applyTarget k secs t).competition = secs.competition
  | 0, _ => fun _ _ => rfl
  | 1, _ => fun _ _ => rfl
  | 2, _ => fun _ _ => rfl
  | 3, h => absurd rfl h
  | 4, _ => fun _ _ => rfl
  | 5, _ => fun _ _ => rfl
  | 6, _ => fun _ _ => rfl
  | 7, _ => fun _ _ => rfl
  | 8, _ => fun _ _ => rfl
  | 9, _ => fun _ _ => rfl
  | 10, _ => fun _ _ => rfl
  | 11, _ => fun _ _ => rfl
  | 12, _ => fun _ _ => rfl
  | 13, _ => fun _ _ => rfl
  | 14, _ => fun _ _ => rfl
  | _ + 15, _ => fun _ _ => rfl

theorem applyTarget_team : ∀ (k : Nat), k ≠ 4 → ∀ (secs : Sections) (t : Str),
    (applyTarget k secs t).team = secs.team
  | 0, _ => fun _ _ => rfl
  | 1, _ => fun _ _ => rfl
  | 2, _ => fun _ _ => rfl
  | 3, _ => fun _ _ => rfl
  | 4, h => absurd rfl h
  | 5, _ => fun _ _ => rfl
  | 6, _ => fun _ _ => rfl
  | 7, _ => fun _ _ => rfl
  | 8, _ => fun _ _ => rfl
  | 9, _ => fun _ _ => rfl
  | 10, _ => fun _ _ => rfl
  | 11, _ => fun _ _ => rfl
  | 12, _ => fun _ _ => rfl
  | 13, _ => fun _ _ => rfl
  | 14, _ => fun _ _ => rfl
  | _ + 15, _ => fun _ _ => rfl

theorem applyTarget_investors : ∀ (k : Nat), k ≠ 5 → ∀ (secs : Sections) (t : Str),
    (applyTarget k secs t).investors = secs.investors
  | 0, _ => fun _ _ => rfl
  | 1, _ => fun _ _ => rfl
  | 2, _ => fun _ _ => rfl
  | 3, _ => fun _ _ => rfl
  | 4, _ => fun _ _ => rfl
  | 5, h => absurd rfl h
  | 6, _ => fun _ _ => rfl
  | 7, _ => fun _ _ => rfl
  | 8, _ => fun _ _ => rfl
  | 9, _ => fun _ _ => rfl
  | 10, _ => fun _ _ => rfl
  | 11, _ => fun _ _ => rfl
  | 12, _ => fun _ _ => rfl
  | 13, _ => fun _ _ => rfl
  | 14, _ => fun _ _ => rfl
  | _ + 15, _ => fun _ _ => rfl

theorem applyTarget_fit_table : ∀ (k : Nat), k ≠ 6 → ∀ (secs : Sections) (t : Str),
    (applyTarget k secs t).fit_table = secs.fit_table
  | 0, _ => fun _ _ => rfl
  | 1, _ => fun _ _ => rfl
  | 2, _ => fun _ _ => rfl
  | 3, _ => fun _ _ => rfl
  | 4, _ => fun _ _ => rfl
  | 5, _ => fun _ _ => rfl
  | 6, h => absurd rfl h
  | 7, _ => fun _ _ => rfl
  | 8, _ => fun _ _ => rfl
  | 9, _ => fun _ _ => rfl
  | 10, _ => fun _ _ => rfl
  | 11, _ => fun _ _ => rfl
  | 12, _ => fun _ _ => rfl
  | 13, _ => fun _ _ => rfl
  | 14, _ => fun _ _ => rfl
  | _ + 15, _ => fun _ _ => rfl

theorem applyTarget_overall_fit : ∀ (k : Nat), k ≠ 6 → ∀ (secs : Sections) (t : Str),
    (applyTarget k secs t).overall_fit = secs.overall_fit
  | 0, _ => fun _ _ => rfl
  | 1, _ => fun _ _ => rfl
  | 2, _ => fun _ _ => rfl
  | 3, _ => fun _ _ => rfl
  | 4, _ => fun _ _ => rfl
  | 5, _ => fun _ _ => rfl
  | 6, h => absurd rfl h
  | 7, _ => fun _ _ => rfl
  | 8, _ => fun _ _ => rfl
  | 9, _ => fun _ _ => rfl
  | 10, _ => fun _ _ => rfl
  | 11, _ => fun _ _ => rfl
  | 12, _ => fun _ _ => rfl
  | 13, _ => fun _ _ => rfl
  | 14, _ => fun _ _ => rfl
  | _ + 15, _ => fun _ _ => rfl

theorem applyTarget_bull_case : ∀ (k : Nat), k ≠ 7 → ∀ (secs : Sections) (t : Str),
    (applyTarget k secs t).bull_case = secs.bull_case
  | 0, _ => fun _ _ => rfl
  | 1, _ => fun _ _ => rfl
  | 2, _ => fun _ _ => rfl
  | 3, _ => fun _ _ => rfl
  | 4, _ => fun _ _ => rfl
  | 5, _ => fun _ _ => rfl
  | 6, _ => fun _ _ => rfl
  | 7, h => absurd rfl h
  | 8, _ => fun _ _ => rfl
  | 9, _ => fun _ _ => rfl
  | 10, _ => fun _ _ => rfl
  | 11, _ => fun _ _ => rfl
  | 12, _ => fun _ _ => rfl
  | 13, _ => fun _ _ => rfl
  | 14, _ => fun _ _ => rfl
  | _ + 15, _ => fun _ _ => rfl

theorem applyTarget_bear_case : ∀ (k : Nat), k ≠ 8 → ∀ (secs : Sections) (t : Str),
    (applyTarget k secs t).bear_case = secs.bear_case
  | 0, _ => fun _ _ => rfl
  | 1, _ => fun _ _ => rfl
  | 2, _ => fun _ _ => rfl
  | 3, _ => fun _ _ => rfl
  | 4, _ => fun _ _ => rfl
  | 5, _ => fun _ _ => rfl
  | 6, _ => fun _ _ => rfl
  | 7, _ => fun _ _ => rfl
  | 8, h => absurd rfl h
  | 9, _ => fun _ _ => rfl
  | 10, _ => fun _ _ => rfl
  | 11, _ => fun _ _ => rfl
  | 12, _ => fun _ _ => rfl
  | 13, _ => fun _ _ => rfl
  | 14, _ => fun _ _ => rfl
  | _ + 15, _ => fun _ _ => rfl

theorem applyTarget_key_debates : ∀ (k : Nat), k ≠ 9 → ∀ (secs : Sections) (t : Str),
    (applyTarget k secs t).key_debates = secs.key_debates
  | 0, _ => fun _ _ => rfl
  | 1, _ => fun _ _ => rfl
  | 2, _ => fun _ _ => rfl
  | 3, _ => fun _ _ => rfl
  | 4, _ => fun _ _ => rfl
  | 5, _ => fun _ _ => rfl
  | 6, _ => fun _ _ => rfl
  | 7, _ => fun _ _ => rfl
  | 8, _ => fun _ _ => rfl
  | 9, h => absurd rfl h
  | 10, _ => fun _ _ => rfl
  | 11, _ => fun _ _ => rfl
  | 12, _ => fun _ _ => rfl
  | 13, _ => fun _ _ => rfl
  | 14, _ => fun _ _ => rfl
  | _ + 15, _ => fun _ _ => rfl

theorem applyTarget_verdict : ∀ (k : Nat), k ≠ 10 → ∀ (secs : Sections) (t : Str),
    (applyTarget k secs t).verdict = secs.verdict
  | 0, _ => fun _ _ => rfl
  | 1, _ => fun _ _ => rfl
  | 2, _ => fun _ _ => rfl
  | 3, _ => fun _ _ => rfl
  | 4, _ => fun _ _ => rfl
  | 5, _ => fun _ _ => rfl
  | 6, _ => fun _ _ => rfl
  | 7, _ => fun _ _ => rfl
  | 8, _ => fun _ _ => rfl
  | 9, _ => fun _ _ => rfl
  | 10, h => absurd rfl h
  | 11, _ => fun _ _ => rfl
  | 12, _ => fun _ _ => rfl
  | 13, _ => fun _ _ => rfl
  | 14, _ => fun _ _ => rfl
  | _ + 15, _ => fun _ _ => rfl

theorem applyTarget_confidence : ∀ (k : Nat), k ≠ 10 → ∀ (secs : Sections) (t : Str),
    (applyTarget k secs t).confidence = secs.confidence
  | 0, _ => fun _ _ => rfl
  | 1, _ => fun _ _ => rfl
  | 2, _ => fun _ _ => rfl
  | 3, _ => fun _ _ => rfl
  | 4, _ => fun _ _ => rfl
  | 5, _ => fun _ _ => rfl
  | 6, _ => fun _ _ => rfl
  | 7, _ => fun _ _ => rfl
  | 8, _ => fun _ _ => rfl
  | 9, _ => fun _ _ => rfl
  | 10, h => absurd rfl h
  | 11, _ => fun _ _ => rfl
  | 12, _ => fun _ _ => rfl
  | 13, _ => fun _ _ => rfl
  | 14, _ => fun _ _ => rfl
  | _ + 15, _ => fun _ _ => rfl

theorem applyTarget_verdict_rationale : ∀ (k : Nat), k ≠ 10 → ∀ (secs : Sections) (t : Str),
    (applyTarget k secs t).verdict_rationale = secs.verdict_rationale
  | 0, _ => fun _ _ => rfl
  | 1, _ => fun _ _ => rfl
  | 2, _ => fun _ _ => rfl
  | 3, _ => fun _ _ => rfl
  | 4, _ => fun _ _ => rfl
  | 5, _ => fun _ _ => rfl
  | 6, _ => fun _ _ => rfl
  | 7, _ => fun _ _ => rfl
  | 8, _ => fun _ _ => rfl
  | 9, _ => fun _ _ => rfl
  | 10, h => absurd rfl h
  | 11, _ => fun _ _ => rfl
  | 12, _ => fun _ _ => rfl
  | 13, _ => fun _ _ => rfl
  | 14, _ => fun _ _ => rfl
  | _ + 15, _ => fun _ _ => rfl

theorem applyTarget_terms : ∀ (k : Nat), k ≠ 11 → ∀ (secs : Sections) (t : Str),
    (applyTarget k secs t).terms = secs.terms
  | 0, _ => fun _ _ => rfl
  | 1, _ => fun _ _ => rfl
  | 2, _ => fun _ _ => rfl
  | 3, _ => fun _ _ => rfl
  | 4, _ => fun _ _ => rfl
  | 5, _ => fun _ _ => rfl
  | 6, _ => fun _ _ => rfl
  | 7, _ => fun _ _ => rfl
  | 8, _ => fun _ _ => rfl
  | 9, _ => fun _ _ => rfl
  | 10, _ => fun _ _ => rfl
  | 11, h => absurd rfl h
  | 12, _ => fun _ _ => rfl
  | 13, _ => fun _ _ => rfl
  | 14, _ => fun _ _ => rfl
  | _ + 15, _ => fun _ _ => rfl

theorem applyTarget_risks : ∀ (k : Nat), k ≠ 12 → ∀ (secs : Sections) (t : Str),
    (applyTarget k secs t).risks = secs.risks
  | 0, _ => fun _ _ => rfl
  | 1, _ => fun _ _ => rfl
  | 2, _ => fun _ _ => rfl
  | 3, _ => fun _ _ => rfl
  | 4, _ => fun _ _ => rfl
  | 5, _ => fun _ _ => rfl
  | 6, _ => fun _ _ => rfl
  | 7, _ => fun _ _ => rfl
  | 8, _ => fun _ _ => rfl
  | 9, _ => fun _ _ => rfl
  | 10, _ => fun _ _ => rfl
  | 11, _ => fun _ _ => rfl
  | 12, h => absurd rfl h
  | 13, _ => fun _ _ => rfl
  | 14, _ => fun _ _ => rfl
  | _ + 15, _ => fun _ _ => rfl

theorem applyTarget_info_gaps : ∀ (k : Nat), k ≠ 12 → ∀ (secs : Sections) (t : Str),
    (applyTarget k secs t).info_gaps = secs.info_gaps
  | 0, _ => fun _ _ => rfl
  | 1, _ => fun _ _ => rfl
  | 2, _ => fun _ _ => rfl
  | 3, _ => fun _ _ => rfl
  | 4, _ => fun _ _ => rfl
  | 5, _ => fun _ _ => rfl
  | 6, _ => fun _ _ => rfl
  | 7, _ => fun _ _ => rfl
  | 8, _ => fun _ _ => rfl
  | 9, _ => fun _ _ => rfl
  | 10, _ => fun _ _ => rfl
  | 11, _ => fun _ _ => rfl
  | 12, h => absurd rfl h
  | 13, _ => fun _ _ => rfl
  | 14, _ => fun _ _ => rfl
  | _ + 15, _ => fun _ _ => rfl

theorem applyTarget_dd_priorities : ∀ (k : Nat), k ≠ 13 → ∀ (secs : Sections) (t : Str),
    (applyTarget k secs t).dd_priorities = secs.dd_priorities
  | 0, _ => fun _ _ => rfl
  | 1, _ => fun _ _ => rfl
  | 2, _ => fun _ _ => rfl
  | 3, _ => fun _ _ => rfl
  | 4, _ => fun _ _ => rfl
  | 5, _ => fun _ _ => rfl
  | 6, _ => fun _ _ => rfl
  | 7, _ => fun _ _ => rfl
  | 8, _ => fun _ _ => rfl
  | 9, _ => fun _ _ => rfl
  | 10, _ => fun _ _ => rfl
  | 11, _ => fun _ _ => rfl
  | 12, _ => fun _ _ => rfl
  | 13, h => absurd rfl h
  | 14, _ => fun _ _ => rfl
  | _ + 15, _ => fun _ _ => rfl

theorem applyTarget_bottom_line : ∀ (k : Nat), k ≠ 14 → ∀ (secs : Sections) (t : Str),
    (applyTarget k secs t).bottom_line = secs.bottom_line
  | 0, _ => fun _ _ => rfl
  | 1, _ => fun _ _ => rfl
  | 2, _ => fun _ _ => rfl
  | 3, _ => fun _ _ => rfl
  | 4, _ => fun _ _ => rfl
  | 5, _ => fun _ _ => rfl
  | 6, _ => fun _ _ => rfl
  | 7, _ => fun _ _ => rfl
  | 8, _ => fun _ _ => rfl
  | 9, _ => fun _ _ => rfl
  | 10, _ => fun _ _ => rfl
  | 11, _ => fun _ _ => rfl
  | 12, _ => fun _ _ => rfl
  | 13, _ => fun _ _ => rfl
  | 14, h => absurd rfl h
  | _ + 15, _ => fun _ _ => rfl

theorem applyTarget_company_name : ∀ (k : Nat) (secs : Sections) (t : Str),
    (applyTarget k secs t).company_name = secs.company_name
  | 0, _, _ => rfl
  | 1, _, _ => rfl
  | 2, _, _ => rfl
  | 3, _, _ => rfl
  | 4, _, _ => rfl
  | 5, _, _ => rfl
  | 6, _, _ => rfl
  | 7, _, _ => rfl
  | 8, _, _ => rfl
  | 9, _, _ => rfl
  | 10, _, _ => rfl
  | 11, _, _ => rfl
  | 12, _, _ => rfl
  | 13, _, _ => rfl
  | 14, _, _ => rfl
  | _ + 15, _, _ => rfl

theorem ssave_opportunity (secs : Sections) (name : Str) (content : List Str)
    (h : sectionTarget name ≠ 0) :
    (save_section secs name content).opportunity = secs.opportunity := by
  rw [save_section_target]
  exact applyTarget_opportunity _ h _ _

theorem ssave_snapshot (secs : Sections) (name : Str) (content : List Str)
    (h : sectionTarget name ≠ 1) :
    (save_section secs name content).snapshot = secs.snapshot := by
  rw [save_section_target]
  exact applyTarget_snapshot _ h _ _

theorem ssave_market (secs : Sections) (name : Str) (content : List Str)
    (h : sectionTarget name ≠ 2) :
    (save_section secs name content).market = secs.market := by
  rw [save_section_target]
  exact applyTarget_market _ h _ _

theorem ssave_competition (secs : Sections) (name : Str) (content : List Str)
    (h : sectionTarget name ≠ 3) :
    (save_section secs name content).competition = secs.competition := by
  rw [save_section_target]
  exact applyTarget_competition _ h _ _

theorem ssave_team (secs : Sections) (name : Str) (content : List Str)
    (h : sectionTarget name ≠ 4) :
    (save_section secs name content).team = secs.team := by
  rw [save_section_target]
  exact applyTarget_team _ h _ _

theorem ssave_investors (secs : Sections) (name : Str) (content : List Str)
    (h : sectionTarget name ≠ 5) :
    (save_section secs name content).investors = secs.investors := by
  rw [save_section_target]
  exact applyTarget_investors _ h _ _

theorem ssave_fit_table (secs : Sections) (name : Str) (content : List Str)
    (h : sectionTarget name ≠ 6) :
    (save_section secs name content).fit_table = secs.fit_table := by
  rw [save_section_target]
  exact applyTarget_fit_table _ h _ _

theorem ssave_overall_fit (secs : Sections) (name : Str) (content : List Str)
    (h : sectionTarget name ≠ 6) :
    (save_section secs name content).overall_fit = secs.overall_fit := by
  rw [save_section_target]
  exact applyTarget_overall_fit _ h _ _

theorem ssave_bull_case (secs : Sections) (name : Str) (content : List Str)
    (h : sectionTarget name ≠ 7) :
    (save_section secs name content).bull_case = secs.bull_case := by
  rw [save_section_target]
  exact applyTarget_bull_case _ h _ _

theorem ssave_bear_case (secs : Sections) (name : Str) (content : List Str)
    (h : sectionTarget name ≠ 8) :
    (save_section secs name content).bear_case = secs.bear_case := by
  rw [save_section_target]
  exact applyTarget_bear_case _ h _ _

theorem ssave_key_debates (secs : Sections) (name : Str) (content : List Str)
    (h : sectionTarget name ≠ 9) :
    (save_section secs name content).key_debates = secs.key_debates := by
  rw [save_section_target]
  exact applyTarget_key_debates _ h _ _

theorem ssave_verdict (secs : Sections) (name : Str) (content : List Str)
    (h : sectionTarget name ≠ 10) :
    (save_section secs name content).verdict = secs.verdict := by
  rw [save_section_target]
  exact applyTarget_verdict _ h _ _

theorem ssave_confidence (secs : Sections) (name : Str) (content : List Str)
    (h : sectionTarget name ≠ 10) :
    (save_section secs name content).confidence = secs.confidence := by
  rw [save_section_target]
  exact applyTarget_confidence _ h _ _

theorem ssave_verdict_rationale (secs : Sections) (name : Str) (content : List Str)
    (h : sectionTarget name ≠ 10) :
    (save_section secs name content).verdict_rationale = secs.verdict_rationale := by
  rw [save_section_target]
  exact applyTarget_verdict_rationale _ h _ _

theorem ssave_terms (secs : Sections) (name : Str) (content : List Str)
    (h : sectionTarget name ≠ 11) :
    (save_section secs name content).terms = secs.terms := by
  rw [save_section_target]
  exact applyTarget_terms _ h _ _

theorem ssave_risks (secs : Sections) (name : Str) (content : List Str)
    (h : sectionTarget name ≠ 12) :
    (save_section secs name content).risks = secs.risks := by
  rw [save_section_target]
  exact applyTarget_risks _ h _ _

theorem ssave_info_gaps (secs : Sections) (name : Str) (content : List Str)
    (h : sectionTarget name ≠ 12) :
    (save_section secs name content).info_gaps = secs.info_gaps := by
  rw [save_section_target]
  exact applyTarget_info_gaps _ h _ _

theorem ssave_dd_priorities (secs : Sections) (name : Str) (content : List Str)
    (h : sectionTarget name ≠ 13) :
    (save_section secs name content).dd_priorities = secs.dd_priorities := by
  rw [save_section_target]
  exact applyTarget_dd_priorities _ h _ _

theorem ssave_bottom_line (secs : Sections) (name : Str) (content : List Str)
    (h : sectionTarget name ≠ 14) :
    (save_section secs name content).bottom_line = secs.bottom_line := by
  rw [save_section_target]
  exact applyTarget_bottom_line _ h _ _

theorem ssave_company_name (secs : Sections) (name : Str) (content : List Str) :
    (save_section secs name content).company_name = secs.company_name := by
  rw [save_section_target]
  exact applyTarget_company_name _ _ _

theorem sectionTarget_le (name : Str) : sectionTarget name ≤ 15 := by
  unfold sectionTarget
  by_cases h1 : containsL ("OPPORTUNITY".data) name = true
  · rw [if_pos h1]
    decide
  · rw [if_neg h1]
    by_cases h2 : containsL ("SNAPSHOT".data) name = true
    · rw [if_pos h2]
      decide
    · rw [if_neg h2]
      by_cases h3 : containsL ("MARKET".data) name = true
      · rw [if_pos h3]
        decide
      · rw [if_neg h3]
        by_cases h4 : (containsL ("COMPETITIVE".data) name || containsL ("COMPETITION".data) name) = true
        · rw [if_pos h4]
          decide
        · rw [if_neg h4]
          by_cases h5 : containsL ("TEAM".data) name = true
          · rw [if_pos h5]
            decide
          · rw [if_neg h5]
            by_cases h6 : (containsL ("INVESTOR".data) name || containsL ("EXISTING INVESTOR".data) name) = true
            · rw [if_pos h6]
              decide
            · rw [if_neg h6]
              by_cases h7 : containsL ("FIT".data) name = true
              · rw [if_pos h7]
                decide
              · rw [if_neg h7]
                by_cases h8 : containsL ("BULL".data) name = true
                · rw [if_pos h8]
                  decide
                · rw [if_neg h8]
                  by_cases h9 : containsL ("BEAR".data) name = true
                  · rw [if_pos h9]
                    decide
                  · rw [if_neg h9]
                    by_cases h10 : (containsL ("KEY DEBATE".data) name || containsL ("DEBATES".data) name) = true
                    · rw [if_pos h10]
                      decide
                    · rw [if_neg h10]
                      by_cases h11 : containsL ("RECOMMENDATION".data) name = true
                      · rw [if_pos h11]
                        decide
                      · rw [if_neg h11]
                        by_cases h12 : containsL ("TERMS".data) name = true
                        · rw [if_pos h12]
                          decide
                        · rw [if_neg h12]
                          by_cases h13 : containsL ("RISK".data) name = true
                          · rw [if_pos h13]
                            decide
                          · rw [if_neg h13]
                            by_cases h14 : (containsL ("DUE DILIGENCE".data) name || containsL ("DD".data) name) = true
                            · rw [if_pos h14]
                              decide
                            · rw [if_neg h14]
                              by_cases h15 : containsL ("BOTTOM".data) name = true
                              · rw [if_pos h15]
                                decide
                              · rw [if_neg h15]


theorem doSave_log_mono (st : PAState) (p : Str × List Str)
    (hp : p ∈ st.savedLog) : p ∈ (doSave st).savedLog := by
  unfold doSave
  split
  · exact List.mem_append_left _ hp
  · exact hp

theorem paStep_log_mono (st : PAState) (l : Str) (p : Str × List Str)
    (hp : p ∈ st.savedLog) : p ∈ (paStep st l).savedLog := by
  by_cases h : (startsW (stripL l) ("# ".data) && !startsW (stripL l) ("## ".data)) = true
  · simp only [paStep, if_pos h]
    split
    · exact hp
    · exact hp
  · simp only [paStep, if_neg h]
    split
    · exact doSave_log_mono st p hp
    · split
      · exact hp
      · split
        · exact hp
        · exact hp

theorem paFold_log_mono : ∀ (ls : List Str) (st : PAState) (p : Str × List Str),
    p ∈ st.savedLog → p ∈ (ls.foldl paStep st).savedLog := by
  intro ls
  induction ls with
  | nil => intro st p hp; exact hp
  | cons l rest ih =>
    intro st p hp
    rw [List.foldl_cons]
    exact ih _ p (paStep_log_mono st l p hp)

theorem doSave_field {α : Type} (f : Sections → α) (k : Nat)
    (hsave : ∀ secs name content, sectionTarget name ≠ k →
      f (save_section secs name content) = f secs)
    (st : PAState)
    (hk : ∀ p ∈ (doSave st).savedLog, sectionTarget p.1 ≠ k) :
    f (doSave st).secs = f st.secs := by
  by_cases h : (!st.cur.isEmpty && !st.content.isEmpty) = true
  · have hmem : (st.cur, st.content) ∈ (doSave st).savedLog := by
      unfold doSave
      rw [if_pos h]
      exact List.mem_append_right _ (List.mem_singleton_self _)
    have hne := hk _ hmem
    unfold doSave
    rw [if_pos h]
    exact hsave st.secs st.cur st.content hne
  · unfold doSave
    rw [if_neg h]

theorem paStep_field {α : Type} (f : Sections → α) (k : Nat)
    (hsave : ∀ secs name content, sectionTarget name ≠ k →
      f (save_section secs name content) = f secs)
    (hverd : ∀ (secs : Sections) (v : Str), f { secs with verdict := v } = f secs)
    (hcomp : ∀ (secs : Sections) (v : Str), f { secs with company_name := v } = f secs)
    (st : PAState) (l : Str)
    (hk : ∀ p ∈ (paStep st l).savedLog, sectionTarget p.1 ≠ k) :
    f (paStep st l).secs = f st.secs := by
  by_cases h : (startsW (stripL l) ("# ".data) && !startsW (stripL l) ("## ".data)) = true
  · simp only [paStep, if_pos h]
    split
    · exact hverd _ _
    · exact hcomp _ _
  · simp only [paStep, if_neg h] at hk ⊢
    split
    next h2 =>
      rw [if_pos h2] at hk
      exact doSave_field f k hsave st fun p hp => hk p hp
    next =>
      split
      · rfl
      · split
        · rfl
        · rfl

theorem paStep_field_noTitle {α : Type} (f : Sections → α) (k : Nat)
    (hsave : ∀ secs name content, sectionTarget name ≠ k →
      f (save_section secs name content) = f secs)
    (st : PAState) (l : Str) (hl : isTitleLine l = false)
    (hk : ∀ p ∈ (paStep st l).savedLog, sectionTarget p.1 ≠ k) :
    f (paStep st l).secs = f st.secs := by
  have h : ¬((startsW (stripL l) ("# ".data) && !startsW (stripL l) ("## ".data)) = true) := by
    unfold isTitleLine at hl
    intro hc
    rw [hl] at hc
    exact Bool.false_ne_true hc
  simp only [paStep, if_neg h] at hk ⊢
  split
  next h2 =>
    rw [if_pos h2] at hk
    exact doSave_field f k hsave st fun p hp => hk p hp
  next =>
    split
    · rfl
    · split
      · rfl
      · rfl

theorem paFold_field {α : Type} (f : Sections → α) (k : Nat)
    (hsave : ∀ secs name content, sectionTarget name ≠ k →
      f (save_section secs name content) = f secs)
    (hverd : ∀ (secs : Sections) (v : Str), f { secs with verdict := v } = f secs)
    (hcomp : ∀ (secs : Sections) (v : Str), f { secs with company_name := v } = f secs) :
    ∀ (ls : List Str) (st : PAState),
      (∀ p ∈ (ls.foldl paStep st).savedLog, sectionTarget p.1 ≠ k) →
      f (ls.foldl paStep st).secs = f st.secs := by
  intro ls
  induction ls with
  | nil => intro st _; rfl
  | cons l rest ih =>
    intro st hk
    rw [List.foldl_cons] at hk ⊢
    have hk1 : ∀ p ∈ (paStep st l).savedLog, sectionTarget p.1 ≠ k :=
      fun p hp => hk p (paFold_log_mono rest (paStep st l) p hp)
    rw [ih (paStep st l) hk]
    exact paStep_field f k hsave hverd hcomp st l hk1

theorem paFold_field_noTitle {α : Type} (f : Sections → α) (k : Nat)
    (hsave : ∀ secs name content, sectionTarget name ≠ k →
      f (save_section secs name content) = f secs) :
    ∀ (ls : List Str) (st : PAState),
      (∀ l ∈ ls, isTitleLine l = false) →
      (∀ p ∈ (ls.foldl paStep st).savedLog, sectionTarget p.1 ≠ k) →
      f (ls.foldl paStep st).secs = f st.secs := by
  intro ls
  induction ls with
  | nil => intro st _ _; rfl
  | cons l rest ih =>
    intro st hnt hk
    rw [List.foldl_cons] at hk ⊢
    have hk1 : ∀ p ∈ (paStep st l).savedLog, sectionTarget p.1 ≠ k :=
      fun p hp => hk p (paFold_log_mono rest (paStep st l) p hp)
    rw [ih (paStep st l) (fun x hx => hnt x (List.mem_cons_of_mem _ hx)) hk]
    exact paStep_field_noTitle f k hsave st l (hnt l (List.mem_cons_self _ _)) hk1

theorem paRun_field {α : Type} (f : Sections → α) (k : Nat)
    (hsave : ∀ secs name content, sectionTarget name ≠ k →
      f (save_section secs name content) = f secs)
    (hverd : ∀ (secs : Sections) (v : Str), f { secs with verdict := v } = f secs)
    (hcomp : ∀ (secs : Sections) (v : Str), f { secs with company_name := v } = f secs)
    (s : Str) (hk : ∀ p ∈ (paRun s).savedLog, sectionTarget p.1 ≠ k) :
    f (parse_analysis s) = f emptySections := by
  have hk2 : ∀ p ∈ ((splitNl s).foldl paStep initPA).savedLog, sectionTarget p.1 ≠ k :=
    fun p hp => hk p (doSave_log_mono _ p hp)
  have h1 : f (doSave ((splitNl s).foldl paStep initPA)).secs
      = f ((splitNl s).foldl paStep initPA).secs :=
    doSave_field f k hsave _ (fun p hp => hk p hp)
  have h2 : f ((splitNl s).foldl paStep initPA).secs = f initPA.secs :=
    paFold_field f k hsave hverd hcomp (splitNl s) initPA hk2
  exact h1.trans h2

theorem paRun_field_noTitle {α : Type} (f : Sections → α) (k : Nat)
    (hsave : ∀ secs name content, sectionTarget name ≠ k →
      f (save_section secs name content) = f secs)
    (s : Str) (hnt : ∀ l ∈ splitNl s, isTitleLine l = false)
    (hk : ∀ p ∈ (paRun s).savedLog, sectionTarget p.1 ≠ k) :
    f (parse_analysis s) = f emptySections := by
  have hk2 : ∀ p ∈ ((splitNl s).foldl paStep initPA).savedLog, sectionTarget p.1 ≠ k :=
    fun p hp => hk p (doSave_log_mono _ p hp)
  have h1 : f (doSave ((splitNl s).foldl paStep initPA)).secs
      = f ((splitNl s).foldl paStep initPA).secs :=
    doSave_field f k hsave _ (fun p hp => hk p hp)
  have h2 : f ((splitNl s).foldl paStep initPA).secs = f initPA.secs :=
    paFold_field_noTitle f k hsave (splitNl s) initPA hnt hk2
  exact h1.trans h2

/-- C1.  Totality of the core pipeline with empty defaults, field by
field: `parse_analysis` and `generate_html` are total functions of the
embedded input (file reading and the current date are passed as
parameters in place of I/O), and a field whose `save_section` branch is
never reached holds its empty default.  For every input string `s`: for
each branch `k` of the dispatch chain, if no `(name, content)` pair
passed to `save_section` during the run has a name reaching branch `k`,
then the field(s) written by branch `k` are empty in `parse_analysis s`;
if no line of `s` is a title line then `company_name` is empty, and if
in addition no saved name reaches the RECOMMENDATION branch then
`verdict` is empty; and the assembly `generate_html` returns a string on
the result for any template and metadata. -/
theorem c1_pipeline_total (s : Str) :
    ((∀ p ∈ (paRun s).savedLog, sectionTarget p.1 ≠ 0) →
      (parse_analysis s).opportunity = []) ∧
    ((∀ p ∈ (paRun s).savedLog, sectionTarget p.1 ≠ 1) →
      (parse_analysis s).snapshot = []) ∧
    ((∀ p ∈ (paRun s).savedLog, sectionTarget p.1 ≠ 2) →
      (parse_analysis s).market = []) ∧
    ((∀ p ∈ (paRun s).savedLog, sectionTarget p.1 ≠ 3) →
      (parse_analysis s).competition = []) ∧
    ((∀ p ∈ (paRun s).savedLog, sectionTarget p.1 ≠ 4) →
      (parse_analysis s).team = []) ∧
    ((∀ p ∈ (paRun s).savedLog, sectionTarget p.1 ≠ 5) →
      (parse_analysis s).investors = []) ∧
    ((∀ p ∈ (paRun s).savedLog, sectionTarget p.1 ≠ 6) →
      (parse_analysis s).fit_table = []) ∧
    ((∀ p ∈ (paRun s).savedLog, sectionTarget p.1 ≠ 6) →
      (parse_analysis s).overall_fit = []) ∧
    ((∀ p ∈ (paRun s).savedLog, sectionTarget p.1 ≠ 7) →
      (parse_analysis s).bull_case = []) ∧
    ((∀ p ∈ (paRun s).savedLog, sectionTarget p.1 ≠ 8) →
      (parse_analysis s).bear_case = []) ∧
    ((∀ p ∈ (paRun s).savedLog, sectionTarget p.1 ≠ 9) →
      (parse_analysis s).key_debates = []) ∧
    ((∀ p ∈ (paRun s).savedLog, sectionTarget p.1 ≠ 10) →
      (parse_analysis s).verdict_rationale = []) ∧
    ((∀ p ∈ (paRun s).savedLog, sectionTarget p.1 ≠ 10) →
      (parse_analysis s).confidence = []) ∧
    ((∀ p ∈ (paRun s).savedLog, sectionTarget p.1 ≠ 11) →
      (parse_analysis s).terms = []) ∧
    ((∀ p ∈ (paRun s).savedLog, sectionTarget p.1 ≠ 12) →
      (parse_analysis s).risks = []) ∧
    ((∀ p ∈ (paRun s).savedLog, sectionTarget p.1 ≠ 12) →
      (parse_analysis s).info_gaps = []) ∧
    ((∀ p ∈ (paRun s).savedLog, sectionTarget p.1 ≠ 13) →
      (parse_analysis s).dd_priorities = []) ∧
    ((∀ p ∈ (paRun s).savedLog, sectionTarget p.1 ≠ 14) →
      (parse_analysis s).bottom_line = []) ∧
    ((∀ l ∈ splitNl s, isTitleLine l = false) →
      (parse_analysis s).company_name = []) ∧
    ((∀ l ∈ splitNl s, isTitleLine l = false) →
      (∀ p ∈ (paRun s).savedLog, sectionTarget p.1 ≠ 10) →
      (parse_analysis s).verdict = []) ∧
    (∀ template source date_str now bull bear delib : Str,
      ∃ out : Str,
        generate_html (parse_analysis s) template source date_str now bull bear delib
          = out) := by
  refine ⟨?_, ?_, ?_, ?_, ?_, ?_, ?_, ?_, ?_, ?_, ?_,
    ?_, ?_, ?_, ?_, ?_, ?_, ?_, ?_, ?_, ?_⟩
  · intro hk
    exact paRun_field (fun x => x.opportunity) 0
      (fun a b c hh => ssave_opportunity a b c hh)
      (fun _ _ => rfl) (fun _ _ => rfl) s hk
  · intro hk
    exact paRun_field (fun x => x.snapshot) 1
      (fun a b c hh => ssave_snapshot a b c hh)
      (fun _ _ => rfl) (fun _ _ => rfl) s hk
  · intro hk
    exact paRun_field (fun x => x.market) 2
      (fun a b c hh => ssave_market a b c hh)
      (fun _ _ => rfl) (fun _ _ => rfl) s hk
  · intro hk
    exact paRun_field (fun x => x.competition) 3
      (fun a b c hh => ssave_competition a b c hh)
      (fun _ _ => rfl) (fun _ _ => rfl) s hk
  · intro hk
    exact paRun_field (fun x => x.team) 4
      (fun a b c hh => ssave_team a b c hh)
      (fun _ _ => rfl) (fun _ _ => rfl) s hk
  · intro hk
    exact paRun_field (fun x => x.investors) 5
      (fun a b c hh => ssave_investors a b c hh)
      (fun _ _ => rfl) (fun _ _ => rfl) s hk
  · intro hk
    exact paRun_field (fun x => x.fit_table) 6
      (fun a b c hh => ssave_fit_table a b c hh)
      (fun _ _ => rfl) (fun _ _ => rfl) s hk
  · intro hk
    exact paRun_field (fun x => x.overall_fit) 6
      (fun a b c hh => ssave_overall_fit a b c hh)
      (fun _ _ => rfl) (fun _ _ => rfl) s hk
  · intro hk
    exact paRun_field (fun x => x.bull_case) 7
      (fun a b c hh => ssave_bull_case a b c hh)
      (fun _ _ => rfl) (fun _ _ => rfl) s hk
  · intro hk
    exact paRun_field (fun x => x.bear_case) 8
      (fun a b c hh => ssave_bear_case a b c hh)
      (fun _ _ => rfl) (fun _ _ => rfl) s hk
  · intro hk
    exact paRun_field (fun x => x.key_debates) 9
      (fun a b c hh => ssave_key_debates a b c hh)
      (fun _ _ => rfl) (fun _ _ => rfl) s hk
  · intro hk
    exact paRun_field (fun x => x.verdict_rationale) 10
      (fun a b c hh => ssave_verdict_rationale a b c hh)
      (fun _ _ => rfl) (fun _ _ => rfl) s hk
  · intro hk
    exact paRun_field (fun x => x.confidence) 10
      (fun a b c hh => ssave_confidence a b c hh)
      (fun _ _ => rfl) (fun _ _ => rfl) s hk
  · intro hk
    exact paRun_field (fun x => x.terms) 11
      (fun a b c hh => ssave_terms a b c hh)
      (fun _ _ => rfl) (fun _ _ => rfl) s hk
  · intro hk
    exact paRun_field (fun x => x.risks) 12
      (fun a b c hh => ssave_risks a b c hh)
      (fun _ _ => rfl) (fun _ _ => rfl) s hk
  · intro hk
    exact paRun_field (fun x => x.info_gaps) 12
      (fun a b c hh => ssave_info_gaps a b c hh)
      (fun _ _ => rfl) (fun _ _ => rfl) s hk
  · intro hk
    exact paRun_field (fun x => x.dd_priorities) 13
      (fun a b c hh => ssave_dd_priorities a b c hh)
      (fun _ _ => rfl) (fun _ _ => rfl) s hk
  · intro hk
    exact paRun_field (fun x => x.bottom_line) 14
      (fun a b c hh => ssave_bottom_line a b c hh)
      (fun _ _ => rfl) (fun _ _ => rfl) s hk
  · intro hnt
    exact paRun_field_noTitle (fun x => x.company_name) 16
      (fun a b c _ => ssave_company_name a b c) s hnt
      (fun p _ => by have := sectionTarget_le p.1; omega)
  · intro hnt hk
    exact paRun_field_noTitle (fun x => x.verdict) 10
      (fun a b c hh => ssave_verdict a b c hh) s hnt hk
  · intro template source date_str now bull bear delib
    exact ⟨_, rfl⟩

/-- Witness for C1's per-field default rule.  On the document
`# Acme` / `### TEAM` / `Bob builds.` the only saved section is `TEAM`
(branch 4), so every field of another branch keeps its empty default; on
`### BULL CASE` / `Good.` the `team` field keeps its default; on the
title-line-free `### TEAM` / `Bob builds.` both `company_name` and
`verdict` keep their empty defaults; and `generate_html` returns a
string on the parsed result. -/
theorem c1_pipeline_total_witness :
    (parse_analysis ("# Acme\n### TEAM\nBob builds.".data)).opportunity = [] ∧
    (parse_analysis ("# Acme\n### TEAM\nBob builds.".data)).snapshot = [] ∧
    (parse_analysis ("# Acme\n### TEAM\nBob builds.".data)).market = [] ∧
    (parse_analysis ("# Acme\n### TEAM\nBob builds.".data)).competition = [] ∧
    (parse_analysis ("### BULL CASE\nGood.".data)).team = [] ∧
    (parse_analysis ("# Acme\n### TEAM\nBob builds.".data)).investors = [] ∧
    (parse_analysis ("# Acme\n### TEAM\nBob builds.".data)).fit_table = [] ∧
    (parse_analysis ("# Acme\n### TEAM\nBob builds.".data)).overall_fit = [] ∧
    (parse_analysis ("# Acme\n### TEAM\nBob builds.".data)).bull_case = [] ∧
    (parse_analysis ("# Acme\n### TEAM\nBob builds.".data)).bear_case = [] ∧
    (parse_analysis ("# Acme\n### TEAM\nBob builds.".data)).key_debates = [] ∧
    (parse_analysis ("# Acme\n### TEAM\nBob builds.".data)).verdict_rationale = [] ∧
    (parse_analysis ("# Acme\n### TEAM\nBob builds.".data)).confidence = [] ∧
    (parse_analysis ("# Acme\n### TEAM\nBob builds.".data)).terms = [] ∧
    (parse_analysis ("# Acme\n### TEAM\nBob builds.".data)).risks = [] ∧
    (parse_analysis ("# Acme\n### TEAM\nBob builds.".data)).info_gaps = [] ∧
    (parse_analysis ("# Acme\n### TEAM\nBob builds.".data)).dd_priorities = [] ∧
    (parse_analysis ("# Acme\n### TEAM\nBob builds.".data)).bottom_line = [] ∧
    (parse_analysis ("### TEAM\nBob builds.".data)).company_name = [] ∧
    (parse_analysis ("### TEAM\nBob builds.".data)).verdict = [] ∧
    (∃ out : Str,
      generate_html (parse_analysis ("# Acme\n### TEAM\nBob builds.".data))
        ("T".data) ("S".data) ("D".data) ("N".data) [] [] [] = out) := by
  obtain ⟨a0, a1, a2, a3, _, a5, a6, a7, a8, a9, a10,
    a11, a12, a13, a14, a15, a16, a17, _, _, a20⟩ :=
    c1_pipeline_total ("# Acme\n### TEAM\nBob builds.".data)
  obtain ⟨_, _, _, _, b4, _⟩ :=
    c1_pipeline_total ("### BULL CASE\nGood.".data)
  obtain ⟨_, _, _, _, _, _, _, _, _, _, _, _, _, _, _, _, _, _, c18, c19, _⟩ :=
    c1_pipeline_total ("### TEAM\nBob builds.".data)
  exact ⟨a0 (by decide), a1 (by decide), a2 (by decide), a3 (by decide),
    b4 (by decide), a5 (by decide), a6 (by decide), a7 (by decide),
    a8 (by decide), a9 (by decide), a10 (by decide), a11 (by decide),
    a12 (by decide), a13 (by decide), a14 (by decide), a15 (by decide),
    a16 (by decide), a17 (by decide), c18 (by decide),
    c19 (by decide) (by decide),
    a20 ("T".data) ("S".data) ("D".data) ("N".data) [] [] []⟩
